import Mathlib

/-!
Shallow embedding of the tool-orchestration engine of the mapita repository
(Next.js API routes `analyze` and `compare` plus their source adapters).

Conventions of the embedding:
* JavaScript numbers are modelled as rationals; the distinction between a
  missing / `null` / non-finite value and a finite number is kept through
  `Option` and the `JVal` type below.
* External effects (HTTP fetches, the OpenAI completions, JSON / XML parsing
  of upstream payloads) are oracles: their outcomes are inputs of the model.
  Everything the repository's own code computes from those outcomes is
  translated directly from the source.
* A JavaScript `throw` is an `Except.error`; adapters that can only return
  are total functions.
-/

set_option maxRecDepth 20000
set_option maxHeartbeats 1000000

/-- Characters matched by the JS regex class `\s`. -/
def jsSpaceChar (c : Char) : Bool :=
  c = ' ' || c = '\t' || c = '\n' || c = '\r' || c = '\x0b' || c = '\x0c' ||
  c = ' ' || c = ' ' || (' ' ≤ c && c ≤ ' ') ||
  c = ' ' || c = ' ' || c = ' ' || c = ' ' ||
  c = '　' || c = '﻿'

/-- JS line terminators (`m`-flag boundaries for `^` and `$`). -/
def lineTermChar (c : Char) : Bool :=
  c = '\n' || c = '\r' || c = ' ' || c = ' '

/-- `String.trim` as JavaScript performs it (strip `\s` characters from
both ends); implemented structurally so that it evaluates by reduction. -/
def jsTrim (s : String) : String :=
  String.mk (((s.data.dropWhile jsSpaceChar).reverse.dropWhile jsSpaceChar).reverse)

/-- `s.startsWith(pre)`, structurally. -/
def startsWithStr (pre s : String) : Bool :=
  pre.data.isPrefixOf s.data

/-- A JavaScript value as it can appear in model-supplied tool arguments.
Strings carry the result of `Number(s)` when that parse is finite, because
`toNumber` in the source feeds strings through `Number`. -/
inductive JVal where
  | jnum (q : ℚ)
  | jnan
  | jstr (s : String) (numVal : Option ℚ)
  | jnull
  | jundef
  | jobj
deriving DecidableEq

/-- `toNumber` from `src/app/api/analyze/route.ts`: finite numbers pass
through, non-blank strings are fed to `Number(...)` keeping finite results,
everything else is `null`. -/
def toNumber : JVal → Option ℚ
  | .jnum q => some q
  | .jstr s v => if jsTrim s ≠ "" then v else none
  | _ => none

/-- `clampNumber` from `src/app/api/analyze/route.ts`:
`Math.min(max, Math.max(min, value))`. -/
def clampNumber (value lo hi : ℚ) : ℚ :=
  min hi (max lo value)

/-- A non-blank string argument (`typeof v === "string" && v.trim()`). -/
def asNonblankString : JVal → Option String
  | .jstr s _ => if jsTrim s ≠ "" then some s else none
  | _ => none

/-- A string argument (`typeof v === "string"`, blank allowed). -/
def asString : JVal → Option String
  | .jstr s _ => some s
  | _ => none

/- ## The required-heading check

`hasRequiredHeadings` in both routes tests, for each heading H, the JS regex
`new RegExp("^##\\s+" + H + "\\s*$", "mi")` against the report.  With the
`m` flag `^` and `$` anchor at line boundaries, while `\s` (which also
matches line terminators) sits between `##` and the heading text and after
it. -/

/-- Case-insensitive character comparison (headings are ASCII, so the JS
`i` flag amounts to lower-casing both sides). -/
def ciCharEq (a b : Char) : Bool := a.toLower = b.toLower

/-- After the heading text: `\s*` and then `$` (end of input or a position
just before a line terminator). -/
def trailingWsOk : List Char → Bool
  | [] => true
  | c :: r => if lineTermChar c then true
              else if jsSpaceChar c then trailingWsOk r
              else false

/-- Match the heading text (case-insensitively) and then `\s*$`. -/
def headingTail (h : List Char) (rest : List Char) : Bool :=
  match h, rest with
  | [], r => trailingWsOk r
  | _ :: _, [] => false
  | a :: h', c :: r' => ciCharEq c a && headingTail h' r'

/-- `\s+` (one or more `\s`, possibly including line terminators) followed
by the heading tail: there must exist k ≥ 1 whitespace characters after
which the heading matches. -/
def wsThenHeading (h : List Char) : List Char → Bool
  | [] => false
  | c :: r => jsSpaceChar c && (headingTail h r || wsThenHeading h r)

/-- The whole pattern `##\s+H\s*$` starting at this position. -/
def headingMatchesAt (h : List Char) : List Char → Bool
  | '#' :: '#' :: r => wsThenHeading h r
  | _ => false

/-- Scan every remaining `^` anchor position (a position just after a line
terminator) for a match. -/
def headingScan (h : List Char) : List Char → Bool
  | [] => false
  | c :: r => (lineTermChar c && headingMatchesAt h r) || headingScan h r

/-- `re.test(report)` for the heading regex of one heading. -/
def headingRegexTest (h : String) (report : String) : Bool :=
  headingMatchesAt h.data report.data || headingScan h.data report.data

/-- `hasRequiredHeadings` from the routes, parameterised by the heading
list: `if (!report) return false;` then `REQUIRED_HEADINGS.every(...)`. -/
def hasHeadingsWith (headings : List String) (report : String) : Bool :=
  (report ≠ "" : Bool) && headings.all (fun h => headingRegexTest h report)

/-- `REQUIRED_HEADINGS` of `src/app/api/analyze/route.ts`. -/
def analyzeRequiredHeadings : List String :=
  ["Descripcion de zona", "Infraestructura cercana", "Riesgos relevantes",
   "Posibles usos urbanos", "Recomendacion final", "Fuentes consultadas",
   "Limitaciones"]

/-- `hasRequiredHeadings` of the analyze route. -/
def hasRequiredHeadings (report : String) : Bool :=
  hasHeadingsWith analyzeRequiredHeadings report

/-- `REQUIRED_HEADINGS` of `src/app/api/compare/route.ts`. -/
def compareRequiredHeadings : List String :=
  ["Ciudad A", "Ciudad B", "Comparacion VS", "Poblacion", "Superficie",
   "Contaminacion", "Riesgos de inundacion", "Otros indicadores",
   "Recomendacion final", "Fuentes consultadas", "Limitaciones"]

/-- `hasRequiredHeadings` of the compare route. -/
def compareHasRequiredHeadings (report : String) : Bool :=
  hasHeadingsWith compareRequiredHeadings report

/- ### The heading contract as the specification words it

The spec (and claim C1) words the contract as: the text contains every
required heading as a Markdown level-2 heading, case-insensitively,
tolerating trailing whitespace, each on its own line.  The next definitions
formalise those words literally (one single line of the report holds `##`,
at least one space, the heading and trailing whitespace only), so they can
be compared with the regex the code actually runs. -/

/-- Split into lines at every line terminator. -/
def splitJsLines : List Char → List (List Char)
  | [] => [[]]
  | c :: r =>
      let rest := splitJsLines r
      if lineTermChar c then [] :: rest
      else match rest with
        | [] => [[c]]
        | l :: ls => (c :: l) :: ls

/-- One line (terminator-free) is exactly `##`, one or more spaces, the
heading text case-insensitively, and trailing whitespace only. -/
def lineIsLevel2Heading (h : List Char) (line : List Char) : Bool :=
  match line with
  | '#' :: '#' :: r => wsThenHeading h r
  | _ => false

/-- The spec-worded contract: every required heading appears as a Markdown
level-2 heading on a line of its own. -/
def headingsEachOnOwnLine (headings : List String) (report : String) : Bool :=
  headings.all (fun h =>
    (splitJsLines report.data).any (fun line => lineIsLevel2Heading h.data line))

example : hasRequiredHeadings "" = false := by decide

/- ## The analyze orchestrator (`src/app/api/analyze/route.ts`, current POST)

The OpenAI completions and the adapters are oracles: a `Turn` is one model
response (its optional text content and its tool-call list), and each
`Call` carries the outcome the named adapter would produce for it (a
returned payload or a thrown error).  Everything else — argument handling,
coordinate reconciliation, the limitations list, the finalization checks,
the step bound — follows the route line by line. -/

/-- The `address` object of Nominatim results, restricted to the keys the
route reads (`pickPlaceName`, `country_code`). -/
structure JAddr where
  city : Option String := none
  town : Option String := none
  village : Option String := none
  municipality : Option String := none
  county : Option String := none
  state : Option String := none
  region : Option String := none
  country_code : Option String := none
deriving DecidableEq

/-- First truthy string of a JS `||` chain (empty strings are falsy). -/
def firstTruthyStr : List (Option String) → Option String
  | [] => none
  | some s :: r => if s ≠ "" then some s else firstTruthyStr r
  | none :: r => firstTruthyStr r

/-- `pickPlaceName` from the analyze route. -/
def pickPlaceName (address : Option JAddr) (displayName : Option String) :
    Option String :=
  let fromAddr :=
    match address with
    | some a => firstTruthyStr
        [a.city, a.town, a.village, a.municipality, a.county, a.state, a.region]
    | none => none
  match fromAddr with
  | some n => some n
  | none =>
    match displayName with
    | some d =>
        if d ≠ "" then
          some (jsTrim (String.mk (d.data.takeWhile (fun c => c ≠ ','))))
        else none
    | none => none

/-- Session coordinates: `{lat, lon, display_name, address}`. -/
structure Coords where
  lat : ℚ
  lon : ℚ
  display_name : Option String := none
  address : Option JAddr := none
deriving DecidableEq

/-- What one adapter invocation does: return a payload or throw. -/
inductive AdapterRes (α : Type) where
  | ret (a : α)
  | thrown (msg : String)
deriving DecidableEq

/-- A stored tool slot: either the adapter payload or the orchestrator's
own `{ok: false, error}` object. -/
inductive Stored (α : Type) where
  | payload (a : α)
  | errObj (msg : String)
deriving DecidableEq

/-- `buscarCoordenadas` result as the orchestrator reads it. -/
structure GeoOut where
  found : Bool := false
  lat : Option ℚ := none
  lon : Option ℚ := none
  display_name : Option String := none
  address : Option JAddr := none
deriving DecidableEq

/-- `capasUrbanismo` result fields the orchestrator reads
(`ign_admin?.ok`, `admin_source`). -/
structure UrbOut where
  ignAdminOk : Option Bool := none
  adminSource : Option String := none
deriving DecidableEq

/-- `riesgoInundacion` result fields the orchestrator reads. -/
structure FloodOut where
  ok : Bool := true
  fallback_used : Bool := false
deriving DecidableEq

/-- `reverseGeocode` result fields the orchestrator reads. -/
structure RevOut where
  ok : Bool := true
  display_name : Option String := none
  address : Option JAddr := none
  extratagsWikidata : Option String := none
deriving DecidableEq

/-- `cityStats` result fields the orchestrator reads (the `city` object is
flattened into the record). -/
structure StatsOut where
  ok : Bool := true
  population : Option ℚ := none
  population_date : Option String := none
  area_km2 : Option ℚ := none
  area_estimated : Bool := false
  population_density_km2 : Option ℚ := none
deriving DecidableEq

/-- Parsed tool-call arguments (each field a JS value; absent = undefined). -/
structure Args where
  lat : JVal := .jundef
  lon : JVal := .jundef
  radius_m : JVal := .jundef
  zoom : JVal := .jundef
  direccion : JVal := .jundef
  address : JVal := .jundef
  name_hint : JVal := .jundef
  country_code : JVal := .jundef
  wikidata_id : JVal := .jundef
deriving DecidableEq

/-- One model tool call: its id, name, parsed arguments (`none` when
`JSON.parse(call.function.arguments)` throws) and the adapter oracle for
whichever tool it names. -/
structure Call where
  id : String := ""
  typeFn : Bool := true
  name : String := ""
  args : Option Args := none
  geoO : AdapterRes GeoOut := .thrown ("unused")
  urbO : AdapterRes UrbOut := .thrown ("unused")
  floodO : AdapterRes FloodOut := .thrown ("unused")
  revO : AdapterRes RevOut := .thrown ("unused")
  statsO : AdapterRes StatsOut := .thrown ("unused")
deriving DecidableEq

/-- Messages appended to the transcript during one run (only the shapes the
claims talk about are distinguished). -/
inductive PushedMsg where
  | assistant
  | toolOut (id : String)
  | toolErr (id : String) (err : String)
  | corrective
deriving DecidableEq

/-- The session state of one analyze run.  `invoked` mirrors
`debug.tool_calls` (one entry per dispatched call with parseable
arguments); `capasRadii` records the radius argument of every
`capasUrbanismo` adapter invocation; `statsCalls` records the
(nameHint, countryCode, wikidataId) options of every `cityStats`
invocation. -/
structure AState where
  coords : Option Coords := none
  urban : Option (Stored UrbOut) := none
  flood : Option (Stored FloodOut) := none
  reverse : Option (Stored RevOut) := none
  stats : Option (Stored StatsOut) := none
  geocodeFailed : Bool := false
  geocodeUsed : Bool := false
  reverseUsed : Bool := false
  limitations : List String := []
  invoked : List String := []
  capasRadii : List ℚ := []
  statsCalls : List (Option String × Option String × Option String) := []
  msgs : List PushedMsg := []
deriving DecidableEq

/-- The validated request body (`BodySchema`): `lat`/`lon` are numbers or
absent, `address` a string or absent, `radius_m` already range-checked by
zod when present. -/
structure ACfg where
  bodyLat : Option ℚ := none
  bodyLon : Option ℚ := none
  bodyAddress : Option String := none
  bodyRadius : Option ℚ := none
deriving DecidableEq

/-- `typeof body.lat === "number" && typeof body.lon === "number"`. -/
def ACfg.hasCoords (c : ACfg) : Bool := c.bodyLat.isSome && c.bodyLon.isSome

/-- `typeof body.address === "string" && body.address.trim().length > 0`. -/
def ACfg.hasAddress (c : ACfg) : Bool :=
  match c.bodyAddress with
  | some s => jsTrim s ≠ ""
  | none => false

/-- `hasAddress && !hasCoords`. -/
def ACfg.geocodeRequired (c : ACfg) : Bool := c.hasAddress && !c.hasCoords

/-- `const radius = body.radius_m ?? 1200`. -/
def ACfg.radius (c : ACfg) : ℚ := c.bodyRadius.getD 1200

/-- `toNumber(args.lat) ?? coords?.lat ?? (hasCoords ? body.lat : null)`. -/
def resolveLat (cfg : ACfg) (st : AState) (v : JVal) : Option ℚ :=
  match toNumber v with
  | some q => some q
  | none =>
    match st.coords with
    | some c => some c.lat
    | none => if cfg.hasCoords then cfg.bodyLat else none

/-- Same resolution chain for the longitude argument. -/
def resolveLon (cfg : ACfg) (st : AState) (v : JVal) : Option ℚ :=
  match toNumber v with
  | some q => some q
  | none =>
    match st.coords with
    | some c => some c.lon
    | none => if cfg.hasCoords then cfg.bodyLon else none

/-- `reverse?.address` (errObj slots and empty slots have no field). -/
def readRevAddress : Option (Stored RevOut) → Option JAddr
  | some (.payload r) => r.address
  | _ => none

/-- `reverse?.display_name`. -/
def readRevDisplay : Option (Stored RevOut) → Option String
  | some (.payload r) => r.display_name
  | _ => none

/-- `reverse?.extratags?.wikidata`. -/
def readRevWikidata : Option (Stored RevOut) → Option String
  | some (.payload r) => r.extratagsWikidata
  | _ => none

/-- The per-call `catch` block of the analyze dispatch loop. -/
def analyzeCatch (st : AState) (toolName : String) (callId : String)
    (emsg : String) : AState :=
  let st :=
    if toolName = "capasUrbanismo" then { st with urban := some (.errObj emsg) }
    else if toolName = "riesgoInundacion" then { st with flood := some (.errObj emsg) }
    else if toolName = "reverseGeocode" then { st with reverse := some (.errObj emsg) }
    else if toolName = "cityStats" then { st with stats := some (.errObj emsg) }
    else if toolName = "buscarCoordenadas" then { st with geocodeFailed := true }
    else st
  { st with limitations := st.limitations ++ [toolName ++ " fallo: " ++ emsg],
            msgs := st.msgs ++ [.toolErr callId emsg] }

/-- The `direccion` fallback chain of the `buscarCoordenadas` branch. -/
def resolveDireccion (cfg : ACfg) (a : Args) : String :=
  match asNonblankString a.direccion with
  | some s => s
  | none =>
    match asNonblankString a.address with
    | some s => s
    | none =>
      match cfg.bodyAddress with
      | some s => s
      | none => ""

/-- Processing of a returned `buscarCoordenadas` payload. -/
def geoApply (st : AState) (cid : String) (out : GeoOut) : AState :=
  let st :=
    if out.found = false then
      { st with
        limitations := st.limitations ++ ["Geocoding: no hubo resultados en Nominatim."],
        geocodeFailed := true }
    else st
  let st :=
    match out.found, out.lat, out.lon with
    | true, some la, some lo =>
        { st with coords := some (
            { lat := la, lon := lo, display_name := out.display_name,
              address := out.address : Coords }) }
    | true, _, _ =>
        { st with geocodeFailed := true,
                  limitations := st.limitations ++ ["Geocoding: respuesta sin lat/lon validos."] }
    | false, _, _ => st
  { st with msgs := st.msgs ++ [.toolOut cid] }

/-- The `buscarCoordenadas` branch of the dispatch loop. -/
def analyzeGeoCall (cfg : ACfg) (st : AState) (c : Call) (a : Args) : AState :=
  if cfg.hasCoords then
    { st with
      limitations := st.limitations ++
        ["Se omitio buscarCoordenadas porque el usuario ya dio coordenadas."],
      msgs := st.msgs ++ [.toolErr c.id ("coords ya presentes; buscarCoordenadas omitida")] }
  else
    let st := { st with geocodeUsed := true }
    if resolveDireccion cfg a = "" then
      { st with geocodeFailed := true,
                limitations := st.limitations ++ ["Geocoding: no se recibio direccion valida."],
                msgs := st.msgs ++ [.toolErr c.id ("Falta direccion para buscarCoordenadas")] }
    else
      match c.geoO with
      | .thrown m => analyzeCatch st ("buscarCoordenadas") c.id m
      | .ret out => geoApply st c.id out

/-- The opportunistic coordinate fill
(`if (!coords) coords = { lat, lon, display_name }`). -/
def coordFill (st : AState) (la lo : ℚ) (dn : Option String) : AState :=
  if st.coords.isNone then
    { st with coords := some { lat := la, lon := lo, display_name := dn } }
  else st

/-- Processing of a returned `capasUrbanismo` payload. -/
def urbApply (st : AState) (cid : String) (la lo : ℚ) (out : UrbOut) : AState :=
  let st := { st with urban := some (.payload out) }
  let st := coordFill st la lo none
  let st :=
    if out.ignAdminOk = some false ∧ out.adminSource = some ("ign") then
      { st with limitations := st.limitations ++
          ["IGN: no se pudo obtener unidad administrativa (best-effort)."] }
    else st
  { st with msgs := st.msgs ++ [.toolOut cid] }

/-- The `capasUrbanismo` branch of the dispatch loop. -/
def analyzeUrbCall (cfg : ACfg) (st : AState) (c : Call) (a : Args) : AState :=
  match resolveLat cfg st a.lat, resolveLon cfg st a.lon with
  | some la, some lo =>
      let radiusArg := (toNumber a.radius_m).getD cfg.radius
      let safeRadius := clampNumber radiusArg 200 5000
      let st := { st with capasRadii := st.capasRadii ++ [safeRadius] }
      match c.urbO with
      | .thrown m => analyzeCatch st ("capasUrbanismo") c.id m
      | .ret out => urbApply st c.id la lo out
  | _, _ =>
      { st with urban := some (.errObj ("lat/lon invalidos para capasUrbanismo")),
                limitations := st.limitations ++ ["capasUrbanismo: lat/lon invalidos."],
                msgs := st.msgs ++ [.toolErr c.id ("lat/lon invalidos para capasUrbanismo")] }

/-- Processing of a returned `riesgoInundacion` payload. -/
def floodApply (st : AState) (cid : String) (la lo : ℚ) (out : FloodOut) : AState :=
  let st := { st with flood := some (.payload out) }
  let st := coordFill st la lo none
  let st :=
    if out.fallback_used then
      { st with limitations := st.limitations ++
          ["Copernicus EFAS: resultado degradado/fallback (ver detalle)."] }
    else st
  { st with msgs := st.msgs ++ [.toolOut cid] }

/-- The `riesgoInundacion` branch of the dispatch loop. -/
def analyzeFloodCall (cfg : ACfg) (st : AState) (c : Call) (a : Args) : AState :=
  match resolveLat cfg st a.lat, resolveLon cfg st a.lon with
  | some la, some lo =>
      match c.floodO with
      | .thrown m => analyzeCatch st ("riesgoInundacion") c.id m
      | .ret out => floodApply st c.id la lo out
  | _, _ =>
      { st with flood := some (.errObj ("lat/lon invalidos para riesgoInundacion")),
                limitations := st.limitations ++ ["riesgoInundacion: lat/lon invalidos."],
                msgs := st.msgs ++ [.toolErr c.id ("lat/lon invalidos para riesgoInundacion")] }

/-- The display-name / address merge of a successful reverse geocode
(`coords.display_name = out.display_name ?? coords.display_name ?? null`,
same for the address). -/
def revCoordsMerge (st : AState) (out : RevOut) : AState :=
  match st.coords with
  | some cd =>
      { st with coords := some (
          { cd with display_name := out.display_name <|> cd.display_name,
                    address := out.address <|> cd.address }) }
  | none => st

/-- Processing of a returned `reverseGeocode` payload. -/
def revApply (st : AState) (cid : String) (la lo : ℚ) (out : RevOut) : AState :=
  let st := { st with reverse := some (.payload out) }
  let st := coordFill st la lo none
  let st :=
    if out.ok then revCoordsMerge st out
    else
      { st with limitations := st.limitations ++
          ["reverseGeocode: no se pudo obtener direccion cercana."] }
  { st with msgs := st.msgs ++ [.toolOut cid] }

/-- The `reverseGeocode` branch of the dispatch loop (`reverseUsed` is set
before the argument checks, as in the source; the zoom argument only feeds
the adapter oracle). -/
def analyzeRevCall (cfg : ACfg) (st : AState) (c : Call) (a : Args) : AState :=
  let st := { st with reverseUsed := true }
  match resolveLat cfg st a.lat, resolveLon cfg st a.lon with
  | some la, some lo =>
      match c.revO with
      | .thrown m => analyzeCatch st ("reverseGeocode") c.id m
      | .ret out => revApply st c.id la lo out
  | _, _ =>
      { st with reverse := some (.errObj ("lat/lon invalidos para reverseGeocode")),
                limitations := st.limitations ++ ["reverseGeocode: lat/lon invalidos."],
                msgs := st.msgs ++ [.toolErr c.id ("lat/lon invalidos para reverseGeocode")] }

/-- The limitations bookkeeping of a returned `cityStats` payload. -/
def statsLimits (st : AState) (out : StatsOut) : AState :=
  if out.ok = false then
    { st with limitations := st.limitations ++
        ["Poblacion/superficie: no se pudieron obtener datos."] }
  else
    let st :=
      if out.population.isNone then
        { st with limitations := st.limitations ++ ["Poblacion: no disponible en fuentes."] }
      else st
    let st :=
      if out.area_km2.isNone then
        { st with limitations := st.limitations ++ ["Superficie: no disponible en fuentes."] }
      else st
    if out.area_estimated then
      { st with limitations := st.limitations ++
          ["Superficie: valor estimado por unidad no explicita."] }
    else st

/-- Processing of a returned `cityStats` payload. -/
def statsApply (st : AState) (cid : String) (la lo : ℚ)
    (displayName : Option String) (out : StatsOut) : AState :=
  let st := { st with stats := some (.payload out) }
  let st := coordFill st la lo displayName
  let st := statsLimits st out
  { st with msgs := st.msgs ++ [.toolOut cid] }

/-- The `cityStats` branch of the dispatch loop. -/
def analyzeStatsCall (cfg : ACfg) (st : AState) (c : Call) (a : Args) : AState :=
  match resolveLat cfg st a.lat, resolveLon cfg st a.lon with
  | some la, some lo =>
      let address := (readRevAddress st.reverse) <|> (st.coords.bind (fun cd => cd.address))
      let displayName := (readRevDisplay st.reverse) <|> (st.coords.bind (fun cd => cd.display_name))
      let nameHintArg := asNonblankString a.name_hint
      let nameHint := nameHintArg <|> pickPlaceName address displayName <|> cfg.bodyAddress
      let countryCode := (asString a.country_code) <|> (address.bind (fun ad => ad.country_code))
      let wikidataId := (asString a.wikidata_id) <|> readRevWikidata st.reverse
      let st := { st with statsCalls := st.statsCalls ++ [(nameHint, countryCode, wikidataId)] }
      match c.statsO with
      | .thrown m => analyzeCatch st ("cityStats") c.id m
      | .ret out => statsApply st c.id la lo displayName out
  | _, _ =>
      { st with stats := some (.errObj ("lat/lon invalidos para cityStats")),
                limitations := st.limitations ++ ["cityStats: lat/lon invalidos."],
                msgs := st.msgs ++ [.toolErr c.id ("lat/lon invalidos para cityStats")] }

/-- Dispatch of one model tool call (the body of `for (const call of
toolCalls)`): non-function calls are skipped, unparseable arguments yield a
tagged error message plus one limitations entry, and parseable calls are
recorded in `invoked` (mirroring `debug.tool_calls`) before branching on
the tool name. -/
def processCall (cfg : ACfg) (st : AState) (c : Call) : AState :=
  if c.typeFn = false then st
  else
    match c.args with
    | none =>
        { st with limitations := st.limitations ++ ["Args invalidos para " ++ c.name],
                  msgs := st.msgs ++ [.toolErr c.id ("Argumentos JSON invalidos para tool")] }
    | some a =>
        let st := { st with invoked := st.invoked ++ [c.name] }
        if c.name = "buscarCoordenadas" then analyzeGeoCall cfg st c a
        else if c.name = "capasUrbanismo" then analyzeUrbCall cfg st c a
        else if c.name = "riesgoInundacion" then analyzeFloodCall cfg st c a
        else if c.name = "reverseGeocode" then analyzeRevCall cfg st c a
        else if c.name = "cityStats" then analyzeStatsCall cfg st c a
        else
          { st with
              limitations := st.limitations ++
                ["Tool desconocida solicitada por el modelo: " ++ c.name],
              msgs := st.msgs ++ [.toolErr c.id ("Tool desconocida: " ++ c.name)] }

/-- The `missingTools` computation of the finalization check. -/
def missingTools (cfg : ACfg) (st : AState) : List String :=
  ([ if cfg.geocodeRequired = true ∧ st.geocodeUsed = false then some ("buscarCoordenadas") else none,
     if st.coords.isSome ∧ st.reverseUsed = false then some ("reverseGeocode") else none,
     if st.urban.isNone then some ("capasUrbanismo") else none,
     if st.flood.isNone then some ("riesgoInundacion") else none,
     if st.coords.isSome ∧ st.stats.isNone then some ("cityStats") else none ] :
    List (Option String)).reduceOption

/-- The success-response body (`NextResponse.json({ok: true, ...})`). -/
structure AResp where
  coords : Option Coords
  urban : Option (Stored UrbOut)
  flood : Option (Stored FloodOut)
  stats : Option (Stored StatsOut)
  report_markdown : String
  limitations : List String
deriving DecidableEq

/-- Assembly of the success response from the final session state. -/
def mkAResp (st : AState) (report : String) : AResp :=
  { coords := st.coords, urban := st.urban, flood := st.flood, stats := st.stats,
    report_markdown := report,
    limitations :=
      if st.limitations = [] then ["Sin incidencias destacables reportadas por las tools."]
      else st.limitations }

/-- The observable outcome of one analyze request.  A success keeps the
final session state alongside the response so run-trace properties can be
stated about it. -/
inductive AOutcome where
  | success (resp : AResp) (final : AState)
  | badRequest
  | unprocessable
  | stepsExhausted
  | serverError (msg : String)
deriving DecidableEq

/-- The no-tool-calls branch of the loop: the 422 geocode dead-end check,
then mandatory-tool completeness, then heading compliance; corrective
re-prompting loops back, otherwise the run succeeds. -/
def processFinal (cfg : ACfg) (st : AState) (report : String) :
    AOutcome ⊕ AState :=
  if cfg.geocodeRequired = true ∧ st.coords.isNone ∧ st.geocodeFailed = true then
    Sum.inl .unprocessable
  else if missingTools cfg st ≠ [] then
    Sum.inr { st with msgs := st.msgs ++ [.corrective] }
  else if hasRequiredHeadings report = false then
    Sum.inr { st with msgs := st.msgs ++ [.corrective] }
  else
    Sum.inl (.success (mkAResp st report) st)

/-- One OpenAI completion: no message at all, or a message with optional
content and tool calls. -/
structure TurnMsg where
  content : Option String := none
  toolCalls : List Call := []
deriving DecidableEq

/-- One iteration's model response. -/
inductive Turn where
  | noMsg
  | msg (m : TurnMsg)
deriving DecidableEq

/-- The `for (let step = 0; step < 6; step++)` loop: each iteration
consumes one model response; falling out of the loop is the
"demasiados pasos" 500; a missing model message throws into the outer
catch. -/
def analyzeLoop (cfg : ACfg) : AState → List Turn → Nat → AOutcome
  | _, _, 0 => .stepsExhausted
  | _, [], _ + 1 => .serverError ("OpenAI no devolvio message")
  | _, Turn.noMsg :: _, _ + 1 => .serverError ("OpenAI no devolvio message")
  | st, Turn.msg m :: ts, fuel + 1 =>
    let st := { st with msgs := st.msgs ++ [PushedMsg.assistant] }
    if m.toolCalls = [] then
      match processFinal cfg st (m.content.getD "") with
      | Sum.inl out => out
      | Sum.inr st' => analyzeLoop cfg st' ts fuel
    else
      let st' := m.toolCalls.foldl (processCall cfg) st
      if cfg.geocodeRequired = true ∧ st'.coords.isNone ∧ st'.geocodeFailed = true then
        .unprocessable
      else analyzeLoop cfg st' ts fuel

/-- Initial session state (line `let coords = hasCoords ? {...} : null`). -/
def initAState (cfg : ACfg) : AState :=
  { coords :=
      match cfg.bodyLat, cfg.bodyLon with
      | some la, some lo => some { lat := la, lon := lo }
      | _, _ => none }

/-- The whole POST handler: input validation, then the 6-step loop. -/
def analyzeRun (cfg : ACfg) (script : List Turn) : AOutcome :=
  if cfg.hasCoords = false ∧ cfg.hasAddress = false then .badRequest
  else analyzeLoop cfg (initAState cfg) script 6

/- ## The compare orchestrator (`src/app/api/compare/route.ts`)

`buildCity` awaits the four adapters directly (a thrown adapter error
propagates into the route's outer catch), computes the population density
in place, and the two-attempt completion loop accepts whatever the second
attempt produced. -/

/-- `airQuality` result field the compare route reads. -/
structure AirOut where
  ok : Bool := true
deriving DecidableEq

/-- The adapter outcomes of one `buildCity` call. -/
structure CityOracle where
  revO : AdapterRes RevOut := .ret {}
  statsO : AdapterRes StatsOut := .ret {}
  airO : AdapterRes AirOut := .ret {}
  floodO : AdapterRes FloodOut := .ret {}
deriving DecidableEq

/-- One per-location bundle. -/
structure CityBundle where
  lat : ℚ
  lon : ℚ
  reverse : RevOut
  stats : StatsOut
  air : AirOut
  flood : FloodOut
deriving DecidableEq

/-- `Number(x.toFixed(2))` for a rational: the nearest multiple of 1/100,
ties towards the larger value. -/
def toFixed2 (q : ℚ) : ℚ := ((⌊q * 100 + 1 / 2⌋ : ℤ) : ℚ) / 100

/-- The in-place density computation of `buildCity`:
`if (stats?.ok && stats.city?.population && stats.city?.area_km2)` (JS
truthiness: a present value of `0` does not qualify) then
`population_density_km2 = Number((population / area_km2).toFixed(2))`. -/
def applyDensity (s : StatsOut) : StatsOut :=
  match s.ok, s.population, s.area_km2 with
  | true, some p, some a =>
      if p ≠ 0 ∧ a ≠ 0 then
        { s with population_density_km2 := some (toFixed2 (p / a)) }
      else s
  | _, _, _ => s

/-- Lift an adapter oracle into the JS control flow: a thrown error
escapes to the caller. -/
def awaitAdapter {α : Type} : AdapterRes α → Except String α
  | .ret a => Except.ok a
  | .thrown m => Except.error m

/-- `buildCity(lat, lon)` of the compare route: the four adapters are
awaited in order (a thrown error propagates to the caller), with the
density computation applied to the stats result in between. -/
def buildCity (lat lon : ℚ) (o : CityOracle) : Except String CityBundle :=
  match awaitAdapter o.revO with
  | Except.error m => Except.error m
  | Except.ok reverse =>
    match awaitAdapter o.statsO with
    | Except.error m => Except.error m
    | Except.ok stats0 =>
      let stats := applyDensity stats0
      match awaitAdapter o.airO with
      | Except.error m => Except.error m
      | Except.ok air =>
        match awaitAdapter o.floodO with
        | Except.error m => Except.error m
        | Except.ok flood =>
            Except.ok { lat := lat, lon := lon, reverse := reverse,
                        stats := stats, air := air, flood := flood }

/-- The limitations list of the compare route. -/
def compareLims (a b : CityBundle) : List String :=
  (if a.reverse.ok = false then ["Ciudad A: sin reverse geocode."] else []) ++
  (if b.reverse.ok = false then ["Ciudad B: sin reverse geocode."] else []) ++
  (if a.stats.ok = false then ["Ciudad A: sin datos de poblacion/superficie en Wikidata."] else []) ++
  (if b.stats.ok = false then ["Ciudad B: sin datos de poblacion/superficie en Wikidata."] else []) ++
  (if a.air.ok = false then ["Ciudad A: sin datos de calidad del aire."] else []) ++
  (if b.air.ok = false then ["Ciudad B: sin datos de calidad del aire."] else []) ++
  (if a.flood.fallback_used then ["Ciudad A: riesgo inundacion con fallback EFAS."] else []) ++
  (if b.flood.fallback_used then ["Ciudad B: riesgo inundacion con fallback EFAS."] else [])

/-- Outcome of one compare request: the route returns `ok: true` whenever
`buildCity` did not throw, regardless of heading compliance. -/
inductive COutcome where
  | ok (report : String) (a b : CityBundle) (limitations : List String)
  | serverError (msg : String)
deriving DecidableEq

/-- The two-attempt completion loop plus response assembly of the compare
POST: attempt 0 is kept if compliant, otherwise attempt 1 is kept —
compliant or not. -/
def compareRun (aLat aLon bLat bLon : ℚ) (oA oB : CityOracle)
    (attempt0 attempt1 : String) : COutcome :=
  match buildCity aLat aLon oA with
  | Except.error m => .serverError m
  | Except.ok cityA =>
    match buildCity bLat bLon oB with
    | Except.error m => .serverError m
    | Except.ok cityB =>
      let lims := compareLims cityA cityB
      let report := if compareHasRequiredHeadings attempt0 then attempt0 else attempt1
      .ok report cityA cityB
        (if lims = [] then ["Sin incidencias destacables reportadas por las tools."] else lims)

/- ## The flood-risk adapter (`riesgoInundacion`, src/unnamed/part_001)

The capabilities fetch, the XML parse of the capabilities document, and
each GetFeatureInfo attempt are oracles; layer selection, the usability
filters of the attempt loop, and the four return shapes follow the
source. -/

/-- One `<Layer>` entry collected by the capabilities walk. -/
structure WLayer where
  name : Option String := none
  title : Option String := none
  queryable : Option String := none
deriving DecidableEq

/-- Case-insensitive substring test (needle already lower-case free form is
not assumed: both sides are lowered). -/
def containsCI (needle : List Char) (hay : List Char) : Bool :=
  let lowHay := hay.map Char.toLower
  let lowNeedle := needle.map Char.toLower
  (List.range (lowHay.length + 1)).any
    (fun i => lowNeedle.isPrefixOf (lowHay.drop i))

/-- The layer-name filter `/flood|inund|risk|rp/i`. -/
def floodNameRegex (s : String) : Bool :=
  containsCI ("flood".data) s.data || containsCI ("inund".data) s.data ||
  containsCI ("risk".data) s.data || containsCI ("rp".data) s.data

/-- JS truthiness of the `Name` attribute (`l.Name && ...`). -/
def layerNameTruthy (l : WLayer) : Bool :=
  match l.name with
  | some s => s ≠ ""
  | none => false

/-- `queryable.find(...) ?? queryable[0] ?? allLayers.find((l) => l.Name) ??
null` — the layer pick of `riesgoInundacion`. -/
def pickLayer (allLayers : List WLayer) : Option WLayer :=
  let queryable := allLayers.filter
    (fun l => layerNameTruthy l && l.queryable = some ("1"))
  match queryable.find? (fun l => floodNameRegex (l.name.getD "")) with
  | some l => some l
  | none =>
    match queryable.head? with
    | some l => some l
    | none => allLayers.find? layerNameTruthy

/-- `looksLikeServiceException`: `/ServiceException|ExceptionReport|
Exception/i.test(raw)` — every alternative contains "Exception", so the
test amounts to a case-insensitive "exception" substring check. -/
def looksLikeServiceException (raw : String) : Bool :=
  containsCI ("exception".data) raw.data

/-- `summarizeParsed`: the (oracle-supplied) `JSON.stringify` text of the
parsed value, truncated past 1800 characters. -/
def summarizeParsed (raw : String) : String :=
  if raw.length > 1800 then raw.take 1800 ++ "..." else raw

/-- Drop everything up to and including the first `>` (regex tag match). -/
def dropPastGt : List Char → Option (List Char)
  | [] => none
  | '>' :: r => some r
  | _ :: r => dropPastGt r

/-- `raw.replace(/<[^>]*>/g, " ")`: complete tags become one space, an
unmatched `<` is kept (fuel is the input length, which suffices). -/
def stripTags : Nat → List Char → List Char
  | 0, l => l
  | _ + 1, [] => []
  | fuel + 1, '<' :: rest =>
      match dropPastGt rest with
      | some r => ' ' :: stripTags fuel r
      | none => '<' :: rest
  | fuel + 1, c :: rest => c :: stripTags fuel rest

/-- `.replace(/\s+/g, " ")` over JS whitespace. -/
def collapseWs : List Char → List Char
  | [] => []
  | c :: r =>
      if jsSpaceChar c then
        match collapseWs r with
        | ' ' :: r' => ' ' :: r'
        | r' => ' ' :: r'
      else c :: collapseWs r

/-- `cleanText` of `riesgoInundacion`. -/
def cleanText (raw : String) : String :=
  jsTrim (String.mk (collapseWs (stripTags raw.data.length raw.data)))

/-- One GetFeatureInfo attempt as the adapter sees it: the fetch outcome
and the oracle results of `tryParseJson` / `tryParseXml` on the body
(each the `JSON.stringify` text of the parsed value when the parse
succeeded and produced a truthy value). -/
structure AttemptO where
  throws : Bool := true
  resOk : Bool := false
  text : String := ""
  ctJson : Bool := false
  ctXml : Bool := false
  jsonParse : Option String := none
  xmlParse : Option String := none
deriving DecidableEq

/-- The per-attempt body of the variant/format loop: `continue` is `none`,
a usable response is `some summary`. -/
def attemptUsable (format : String) (a : AttemptO) : Option String :=
  if a.throws then none
  else if a.resOk = false then none
  else if a.text = "" ∨ a.text.length < 20 then none
  else if looksLikeServiceException a.text then none
  else
    let parsed : Option String :=
      if containsCI ("json".data) format.data ∨ a.ctJson ∨
          startsWithStr ("\x7b") (jsTrim a.text) then a.jsonParse
      else none
    let parsed : Option String :=
      match parsed with
      | some p => some p
      | none =>
        if containsCI ("gml".data) format.data ∨ a.ctXml ∨
            startsWithStr ("<") (jsTrim a.text) then a.xmlParse
        else none
    let summary :=
      match parsed with
      | some p => summarizeParsed p
      | none => cleanText a.text
    if summary = "" ∨ summary.length < 20 then none
    else some summary

/-- The format candidates of the feature-info loop. -/
def formatCandidates : List String :=
  ["application/json", "application/vnd.ogc.gml", "text/plain", "text/html"]

/-- The (version, axis) variants in loop order. -/
def floodVariants : List (String × String) :=
  [("1.3.0", "latlon"), ("1.1.1", "lonlat")]

/-- The eight (variant, format) attempt slots in loop order. -/
def attemptSlots : List ((String × String) × String) :=
  floodVariants.flatMap (fun v => formatCandidates.map (fun f => (v, f)))

/-- Walk the attempt slots with the oracle outcomes; the first usable
response wins (missing oracle entries behave like a thrown fetch). -/
def firstUsableAttempt :
    List ((String × String) × String) → List AttemptO →
    Option ((String × String) × String × String)
  | [], _ => none
  | slot :: slots, [] =>
      match attemptUsable slot.2 {} with
      | some s => some (slot.1, slot.2, s)
      | none => firstUsableAttempt slots []
  | slot :: slots, a :: as' =>
      match attemptUsable slot.2 a with
      | some s => some (slot.1, slot.2, s)
      | none => firstUsableAttempt slots as'

/-- The oracle inputs of one `riesgoInundacion` call. -/
structure FloodOracle where
  capThrows : Bool := false
  capOk : Bool := true
  capStatus : Nat := 200
  layers : List WLayer := []
  attempts : List AttemptO := []
deriving DecidableEq

/-- The full result record of `riesgoInundacion` (fields not bearing on
the claims — raw capability echoes, the request URL — are omitted). -/
structure FloodFull where
  ok : Bool
  method : String
  fallback_used : Bool
  layerName : Option String := none
  layerTitle : Option String := none
  infoFormat : Option String := none
  axisOrder : Option String := none
  summary : Option String := none
  reason : Option String := none
deriving DecidableEq

/-- `riesgoInundacion(lat, lon)` (src/unnamed/part_001): a network error of
the capabilities fetch throws; every other path returns one of the four
tagged shapes of the source. -/
def riesgoInundacion (o : FloodOracle) : Except String FloodFull :=
  if o.capThrows then Except.error ("fetch failed")
  else if o.capOk = false then
    Except.ok
      { ok := false, method := "copernicus_wms", fallback_used := true,
        reason := some ("GetCapabilities HTTP " ++ toString o.capStatus) }
  else
    match pickLayer o.layers with
    | none =>
        Except.ok
          { ok := false, method := "copernicus_wms", fallback_used := true,
            reason := some ("No se encontro layer usable en capabilities") }
    | some pick =>
      if (pick.name.getD "") = "" then
        Except.ok
          { ok := false, method := "copernicus_wms", fallback_used := true,
            reason := some ("No se encontro layer usable en capabilities") }
      else
        match firstUsableAttempt attemptSlots o.attempts with
        | none =>
            Except.ok
              { ok := false, method := "copernicus_efas_wms", fallback_used := true,
                layerName := pick.name, layerTitle := pick.title }
        | some (variant, format, summary) =>
            Except.ok
              { ok := true, method := "copernicus_efas_wms", fallback_used := false,
                layerName := pick.name, layerTitle := pick.title,
                infoFormat := some format, axisOrder := some variant.2,
                summary := some summary }

/- ## Source adapters (`src/lib/tools/...`)

Each adapter is a function of its oracle (the upstream HTTP outcomes).  A
JS `throw` — including `fetchWithTimeout` network errors — is
`Except.error`. -/

/-- One Nominatim search hit as `buscarCoordenadas` reads it
(`Number(best.lat)`, `Number(best.lon)` — a non-finite conversion is
abstracted as `none`). -/
structure GeoHit where
  latNum : Option ℚ := none
  lonNum : Option ℚ := none
  display_name : Option String := none
  address : Option JAddr := none
deriving DecidableEq

/-- The upstream outcome of one `buscarCoordenadas` call. -/
structure GeoOracle where
  fetchThrows : Bool := false
  resOk : Bool := true
  status : Nat := 200
  results : List GeoHit := []
deriving DecidableEq

/-- `buscarCoordenadas` (src/lib/tools/buscarCoordenadas.ts).  Note the
`throw new Error(...)` on a non-OK search response. -/
def buscarCoordenadas (o : GeoOracle) : Except String GeoOut :=
  if o.fetchThrows then Except.error ("fetch failed")
  else if o.resOk = false then
    Except.error ("Nominatim search fallo: HTTP " ++ toString o.status)
  else
    match o.results.head? with
    | none => Except.ok { found := false }
    | some best =>
        Except.ok { found := true, lat := best.latNum, lon := best.lonNum,
                    display_name := best.display_name, address := best.address }

/-- The upstream outcome of one Overpass endpoint attempt. -/
inductive EndpointOut where
  | throwNet (msg : String)
  | resp (ok : Bool) (status : Nat)
deriving DecidableEq

/-- The oracle of one `capasUrbanismo` call.  The geometry post-processing
of the element list (haversine scoring, category counts) does not bear on
any claim and is abstracted behind `elementsCount`; the IGN / reverse
administrative lookup keeps its branch structure. -/
structure UrbOracle where
  envEndpoint : Option String := none
  endpointOuts : List EndpointOut := []
  elementsCount : Nat := 0
  ignThrows : Bool := false
  ignOk : Bool := false
  ignStatus : Nat := 500
  revAdminOk : Bool := false
deriving DecidableEq

/-- The body of `uniqueEndpoints` (the `seen` set keeps first
occurrences). -/
def uniqueEndpointsGo (seen : List String) : List String → List String
  | [] => []
  | e :: r =>
      if e ∈ seen then uniqueEndpointsGo seen r
      else e :: uniqueEndpointsGo (seen ++ [e]) r

/-- `uniqueEndpoints` of capasUrbanismo. -/
def uniqueEndpoints (eps : List String) : List String :=
  uniqueEndpointsGo [] eps

/-- The default and fallback Overpass mirrors. -/
def overpassEndpointList (envEndpoint : Option String) : List String :=
  uniqueEndpoints
    [envEndpoint.getD ("https://overpass-api.de/api/interpreter"),
     "https://overpass.kumi.systems/api/interpreter",
     "https://overpass.nchc.org.tw/api/interpreter"]

/-- The mirror loop: first OK response wins; a network error throws; all
non-OK means falling out with the last status. -/
def overpassLoop (outs : List EndpointOut) (eps : List String)
    (lastStatus : Option Nat) :
    Except String (Option String × Option Nat) :=
  match eps, outs with
  | [], _ => Except.ok (none, lastStatus)
  | e :: eps', out :: outs' =>
      match out with
      | .throwNet m => Except.error m
      | .resp true _ => Except.ok (some e, lastStatus)
      | .resp false status => overpassLoop outs' eps' (some status)
  | _ :: _, [] => Except.error ("fetch failed")

/-- The administrative-lookup part of `capasUrbanismo` (IGN attempt with
Nominatim reverse fallback inside its own try/catch). -/
def ignAdminLookup (o : UrbOracle) : Option Bool × String :=
  if o.ignThrows then
    if o.revAdminOk then (some true, "nominatim") else (some false, "ign")
  else if o.ignOk then (some true, "ign")
  else if o.revAdminOk then (some true, "nominatim")
  else (some false, "ign")

/-- The full `capasUrbanismo` result shape (fields the callers read). -/
structure UrbFull where
  radius_m : ℚ
  ignAdminOk : Option Bool := none
  adminSource : String := "ign"
  overpassUsed : String := ""
  overpassFallbackUsed : Bool := false
  rawCount : Nat := 0
deriving DecidableEq

/-- `capasUrbanismo(lat, lon, radius_m)` (src/lib/tools/capasUrbanismo.ts):
`throw new Error("Overpass fallo: HTTP ...")` when every mirror failed. -/
def capasUrbanismo (o : UrbOracle) (radius_m : Option ℚ) : Except String UrbFull := do
  let eps := overpassEndpointList o.envEndpoint
  let r := radius_m.getD 1200
  let (winner, lastStatus) ← overpassLoop o.endpointOuts eps none
  match winner with
  | none =>
      Except.error ("Overpass fallo: HTTP " ++
        (match lastStatus with | some s => toString s | none => "unknown"))
  | some usedEndpoint =>
      let (adminOk, adminSource) := ignAdminLookup o
      Except.ok
        { radius_m := r, ignAdminOk := adminOk, adminSource := adminSource,
          overpassUsed := usedEndpoint,
          overpassFallbackUsed :=
            usedEndpoint ≠ (o.envEndpoint.getD ("https://overpass-api.de/api/interpreter")),
          rawCount := o.elementsCount }

/-- The upstream outcome of one `reverseGeocode` call. -/
structure RevOracle where
  fetchThrows : Bool := false
  resOk : Bool := true
  status : Nat := 200
  display_name : Option String := none
  address : Option JAddr := none
  extratagsWikidata : Option String := none
deriving DecidableEq

/-- `reverseGeocode` (src/lib/tools/reverseGeocode.ts): a non-OK response
returns the tagged `{ok: false, error}` result — it does not throw. -/
def reverseGeocode (o : RevOracle) : Except String RevOut :=
  if o.fetchThrows then Except.error ("fetch failed")
  else if o.resOk = false then
    Except.ok { ok := false, display_name := none, address := none,
                extratagsWikidata := none }
  else
    Except.ok { ok := true, display_name := o.display_name,
                address := o.address, extratagsWikidata := o.extratagsWikidata }

/-- The upstream outcome of one `airQuality` call. -/
structure AirOracle where
  fetchThrows : Bool := false
  resOk : Bool := true
  status : Nat := 200
  hasCurrent : Bool := true
deriving DecidableEq

/-- `airQuality` (src/lib/tools/airQuality.ts): tagged results on non-OK
status and on a missing `current` block. -/
def airQuality (o : AirOracle) : Except String AirOut :=
  if o.fetchThrows then Except.error ("fetch failed")
  else if o.resOk = false then Except.ok { ok := false }
  else if o.hasCurrent = false then Except.ok { ok := false }
  else Except.ok { ok := true }

/- ## cityStats population extraction (`src/lib/tools/cityStats.ts`) -/

/-- One P1082 (population) claim as `pickLatestPopulation` reads it:
`amount` is `parseNumber(claim.mainsnak.datavalue.value.amount)` and
`time` is `parseWikidataTime` of the first P585 qualifier (the date text
with its `Date.parse` timestamp), `none` when absent or unparseable. -/
structure PopClaim where
  amount : Option ℚ := none
  time : Option (String × ℤ) := none
deriving DecidableEq

/-- `timeInfo.ts >= latestTs` where the initial `latestTs` is
`-Infinity`. -/
def tsGe (ts : ℤ) : Option ℤ → Bool
  | none => true
  | some latest => ts ≥ latest

/-- One iteration of the `pickLatestPopulation` loop over
`(population, populationDate, latestTs)`. -/
def pickStep (acc : Option ℚ × Option String × Option ℤ) (c : PopClaim) :
    Option ℚ × Option String × Option ℤ :=
  match c.amount with
  | none => acc
  | some pop =>
    match c.time with
    | some (t, ts) =>
        if tsGe ts acc.2.2 then (some pop, some t, some ts) else acc
    | none =>
        if acc.1 = none then (some pop, acc.2.1, acc.2.2) else acc

/-- `pickLatestPopulation` of cityStats. -/
def pickLatestPopulation (claims : List PopClaim) : Option ℚ × Option String :=
  let acc := claims.foldl pickStep (none, none, none)
  (acc.1, acc.2.1)

/-- A claim viewed as a dated (amount, timestamp) pair, `none` when it is
not time-qualified or carries no amount. -/
def datedOf (c : PopClaim) : Option (ℚ × ℤ) :=
  match c.amount, c.time with
  | some p, some ti => some (p, ti.2)
  | _, _ => none

/-- The time-qualified (dated) claims, as (amount, timestamp) pairs. -/
def datedClaims (claims : List PopClaim) : List (ℚ × ℤ) :=
  claims.filterMap datedOf

/-- One step of the running maximum of the dated timestamps. -/
def maxTsStep (m : Option ℤ) (pts : ℚ × ℤ) : Option ℤ :=
  match m with
  | none => some pts.2
  | some b => some (max b pts.2)

/-- The maximum timestamp of the dated claims. -/
def maxTsOf (l : List (ℚ × ℤ)) : Option ℤ :=
  l.foldl maxTsStep none

/-- Modelled from the claim's words: the population whose date qualifier is
the latest, the last equally-recent claim winning; a claim without a date
qualifier only when no dated claim exists (and then the first amount). -/
def specPopulation (claims : List PopClaim) : Option ℚ :=
  match maxTsOf (datedClaims claims) with
  | none => (claims.find? (fun c => c.amount.isSome)).bind (fun c => c.amount)
  | some m =>
      (((datedClaims claims).filter (fun x => x.2 = m)).getLast?).map (fun x => x.1)

/- ## The legacy analyze routine (second `POST` document bundled in
`src/app/api/analyze/route.ts`)

Its dispatch loop parses `call.function.arguments` OUTSIDE the per-call
try/catch, so malformed tool-call arguments throw out of the whole loop
and are answered by the outer catch with a 500.  It declares only three
tools and accepts the first completion without tool calls as the final
report, with no completeness or heading checks. -/

/-- Session state of the legacy routine. -/
structure LState where
  coords : Option Coords := none
  urban : Option UrbOut := none
  flood : Option FloodOut := none
  limitations : List String := []
  invoked : List String := []
  msgs : List PushedMsg := []
deriving DecidableEq

/-- One legacy tool-call dispatch.  `JSON.parse` of malformed arguments is
a thrown error (`Except.error`); everything after it sits in the per-call
try/catch. -/
def processCallLegacy (cfg : ACfg) (st : LState) (c : Call) :
    Except String LState :=
  if c.typeFn = false then Except.ok st
  else
    match c.args with
    | none => Except.error ("Unexpected token in JSON")
    | some _ =>
      let st := { st with invoked := st.invoked ++ [c.name] }
      if c.name = "buscarCoordenadas" then
        if cfg.hasCoords then
          Except.ok { st with
            limitations := st.limitations ++
              ["Se omitió buscarCoordenadas porque el usuario ya dio coordenadas."],
            msgs := st.msgs ++ [.toolErr c.id ("coords ya presentes; buscarCoordenadas omitida")] }
        else
          match c.geoO with
          | .thrown m =>
              Except.ok { st with
                limitations := st.limitations ++ ["buscarCoordenadas falló: " ++ m],
                msgs := st.msgs ++ [.toolErr c.id m] }
          | .ret out =>
            let st :=
              if out.found = false then
                { st with limitations := st.limitations ++
                    ["Geocoding: no hubo resultados en Nominatim."] }
              else st
            let st :=
              match out.found, out.lat, out.lon with
              | true, some la, some lo =>
                  { st with coords := some (
                      { lat := la, lon := lo,
                        display_name := out.display_name : Coords }) }
              | _, _, _ => st
            Except.ok { st with msgs := st.msgs ++ [.toolOut c.id] }
      else if c.name = "capasUrbanismo" then
        match c.urbO with
        | .thrown m =>
            Except.ok { st with
              limitations := st.limitations ++ ["capasUrbanismo falló: " ++ m],
              msgs := st.msgs ++ [.toolErr c.id m] }
        | .ret out =>
          let st := { st with urban := some out }
          let st :=
            if out.ignAdminOk = some false then
              { st with limitations := st.limitations ++
                  ["IGN: no se pudo obtener unidad administrativa (best-effort)."] }
            else st
          Except.ok { st with msgs := st.msgs ++ [.toolOut c.id] }
      else if c.name = "riesgoInundacion" then
        match c.floodO with
        | .thrown m =>
            Except.ok { st with
              limitations := st.limitations ++ ["riesgoInundacion falló: " ++ m],
              msgs := st.msgs ++ [.toolErr c.id m] }
        | .ret out =>
          let st := { st with flood := some out }
          let st :=
            if out.fallback_used then
              { st with limitations := st.limitations ++
                  ["Copernicus EFAS: resultado degradado/fallback (ver detalle)."] }
            else st
          Except.ok { st with msgs := st.msgs ++ [.toolOut c.id] }
      else
        Except.ok { st with
          limitations := st.limitations ++
            ["Tool desconocida solicitada por el modelo: " ++ c.name],
          msgs := st.msgs ++ [.toolErr c.id ("Tool desconocida: " ++ c.name)] }

/-- Sequential dispatch of one legacy batch (a thrown argument-parse error
aborts the rest of the batch). -/
def legacyFold (cfg : ACfg) : LState → List Call → Except String LState
  | st, [] => Except.ok st
  | st, c :: cs => do
      let st' ← processCallLegacy cfg st c
      legacyFold cfg st' cs

/-- Outcome of one legacy analyze request. -/
inductive LOutcome where
  | success (report : String) (final : LState)
  | badRequest
  | stepsExhausted
  | serverError (msg : String)
deriving DecidableEq

/-- The legacy `for (let step = 0; step < 5; step++)` loop: the first
completion without tool calls is returned as the report, unchecked. -/
def analyzeLegacyLoop (cfg : ACfg) : LState → List Turn → Nat → LOutcome
  | _, _, 0 => .stepsExhausted
  | _, [], _ + 1 => .serverError ("OpenAI no devolvió message")
  | _, Turn.noMsg :: _, _ + 1 => .serverError ("OpenAI no devolvió message")
  | st, Turn.msg m :: ts, fuel + 1 =>
    let st := { st with msgs := st.msgs ++ [PushedMsg.assistant] }
    if m.toolCalls = [] then .success (m.content.getD "") st
    else
      match legacyFold cfg st m.toolCalls with
      | Except.error e => .serverError e
      | Except.ok st' => analyzeLegacyLoop cfg st' ts fuel

/-- The legacy POST handler with its outer catch. -/
def analyzeLegacyRun (cfg : ACfg) (script : List Turn) : LOutcome :=
  if cfg.hasCoords = false ∧ cfg.hasAddress = false then .badRequest
  else
    analyzeLegacyLoop cfg
      { coords :=
          match cfg.bodyLat, cfg.bodyLon with
          | some la, some lo => some { lat := la, lon := lo }
          | _, _ => none }
      script 5

/-- `fetchWikidataEntity` of cityStats, reduced to its HTTP-failure
discipline: it returns the tagged `{ok: false, error}` object on a non-OK
response rather than throwing (a network error still throws). -/
def fetchWikidataEntityHttp (fetchThrows : Bool) (resOk : Bool) (status : Nat) :
    Except String (Bool × Option String) :=
  if fetchThrows then Except.error ("fetch failed")
  else if resOk = false then
    Except.ok (false, some ("Wikidata EntityData HTTP " ++ toString status))
  else Except.ok (true, none)

/- ## Run invariants of the analyze loop -/

/-- The inductive invariant of one analyze run: the used-flags imply a
recorded invocation, a used-and-not-failed geocode implies known
coordinates, caller-supplied coordinates are pinned, and every radius
handed to `capasUrbanismo` is clamped. -/
structure StateInv (cfg : ACfg) (st : AState) : Prop where
  geoInv : st.geocodeUsed = true → "buscarCoordenadas" ∈ st.invoked
  revInv : st.reverseUsed = true → "reverseGeocode" ∈ st.invoked
  urbInv : st.urban.isSome = true → "capasUrbanismo" ∈ st.invoked
  floodInv : st.flood.isSome = true → "riesgoInundacion" ∈ st.invoked
  statsInv : st.stats.isSome = true → "cityStats" ∈ st.invoked
  geoCoords : st.geocodeUsed = true → st.geocodeFailed = false →
      st.coords.isSome = true
  pinned : ∀ la lo, cfg.bodyLat = some la → cfg.bodyLon = some lo →
      ∃ dn ad, st.coords = some { lat := la, lon := lo, display_name := dn, address := ad }
  radii : ∀ r ∈ st.capasRadii, 200 ≤ r ∧ r ≤ 5000

theorem clampNumber_mem (v : ℚ) : 200 ≤ clampNumber v 200 5000 ∧ clampNumber v 200 5000 ≤ 5000 := by
  unfold clampNumber
  constructor
  · exact le_min (by norm_num) (le_max_left _ _)
  · exact min_le_left _ _

theorem stateInv_addLimMsgs (cfg : ACfg) (st : AState) (L : List String)
    (M : List PushedMsg) (h : StateInv cfg st) :
    StateInv cfg { st with limitations := L, msgs := M } :=
  { geoInv := h.geoInv, revInv := h.revInv, urbInv := h.urbInv,
    floodInv := h.floodInv, statsInv := h.statsInv, geoCoords := h.geoCoords,
    pinned := h.pinned, radii := h.radii }

theorem stateInv_catch (cfg : ACfg) (st : AState) (toolName callId emsg : String)
    (h : StateInv cfg st) (htool : toolName ∈ st.invoked) :
    StateInv cfg (analyzeCatch st toolName callId emsg) := by
  unfold analyzeCatch
  split_ifs with h1 h2 h3 h4 h5
  · exact stateInv_addLimMsgs _ _ _ _
      { h with urbInv := fun _ => h1 ▸ htool }
  · exact stateInv_addLimMsgs _ _ _ _
      { h with floodInv := fun _ => h2 ▸ htool }
  · exact stateInv_addLimMsgs _ _ _ _
      ⟨h.geoInv, h.revInv, h.urbInv, h.floodInv, h.statsInv, h.geoCoords,
       h.pinned, h.radii⟩
  · exact stateInv_addLimMsgs _ _ _ _
      { h with statsInv := fun _ => h4 ▸ htool }
  · exact stateInv_addLimMsgs _ _ _ _
      { h with geoCoords := fun _ hf => by simp at hf }
  · exact stateInv_addLimMsgs _ _ _ _
      ⟨h.geoInv, h.revInv, h.urbInv, h.floodInv, h.statsInv, h.geoCoords,
       h.pinned, h.radii⟩

theorem analyzeCatch_geo_eq (st : AState) (callId emsg : String) :
    analyzeCatch st ("buscarCoordenadas") callId emsg =
    { st with geocodeFailed := true,
              limitations := st.limitations ++ ["buscarCoordenadas fallo: " ++ emsg],
              msgs := st.msgs ++ [.toolErr callId emsg] } := by
  rfl

theorem analyzeCatch_urb_eq (st : AState) (callId emsg : String) :
    analyzeCatch st ("capasUrbanismo") callId emsg =
    { st with urban := some (.errObj emsg),
              limitations := st.limitations ++ ["capasUrbanismo fallo: " ++ emsg],
              msgs := st.msgs ++ [.toolErr callId emsg] } := by
  rfl

theorem analyzeCatch_flood_eq (st : AState) (callId emsg : String) :
    analyzeCatch st ("riesgoInundacion") callId emsg =
    { st with flood := some (.errObj emsg),
              limitations := st.limitations ++ ["riesgoInundacion fallo: " ++ emsg],
              msgs := st.msgs ++ [.toolErr callId emsg] } := by
  rfl

theorem analyzeCatch_rev_eq (st : AState) (callId emsg : String) :
    analyzeCatch st ("reverseGeocode") callId emsg =
    { st with reverse := some (.errObj emsg),
              limitations := st.limitations ++ ["reverseGeocode fallo: " ++ emsg],
              msgs := st.msgs ++ [.toolErr callId emsg] } := by
  rfl

theorem analyzeCatch_stats_eq (st : AState) (callId emsg : String) :
    analyzeCatch st ("cityStats") callId emsg =
    { st with stats := some (.errObj emsg),
              limitations := st.limitations ++ ["cityStats fallo: " ++ emsg],
              msgs := st.msgs ++ [.toolErr callId emsg] } := by
  rfl


theorem stateInv_geoApply (cfg : ACfg) (st : AState) (cid : String) (out : GeoOut)
    (htool : "buscarCoordenadas" ∈ st.invoked)
    (h2 : st.reverseUsed = true → "reverseGeocode" ∈ st.invoked)
    (h3 : st.urban.isSome = true → "capasUrbanismo" ∈ st.invoked)
    (h4 : st.flood.isSome = true → "riesgoInundacion" ∈ st.invoked)
    (h5 : st.stats.isSome = true → "cityStats" ∈ st.invoked)
    (h8 : ∀ r ∈ st.capasRadii, 200 ≤ r ∧ r ≤ 5000)
    (hpin : ∀ la lo, cfg.bodyLat = some la → cfg.bodyLon = some lo → False) :
    StateInv cfg (geoApply st cid out) := by
  unfold geoApply
  rcases out with ⟨found, latO, lonO, dn0, ad0⟩
  cases found
  · exact ⟨fun _ => htool, h2, h3, h4, h5, fun _ hf => by simp at hf,
      fun la lo hla hlo => (hpin la lo hla hlo).elim, h8⟩
  · cases latO with
    | some la' =>
        cases lonO with
        | some lo' =>
            exact ⟨fun _ => htool, h2, h3, h4, h5, fun _ _ => rfl,
              fun la lo hla hlo => (hpin la lo hla hlo).elim, h8⟩
        | none =>
            exact ⟨fun _ => htool, h2, h3, h4, h5, fun _ hf => by simp at hf,
              fun la lo hla hlo => (hpin la lo hla hlo).elim, h8⟩
    | none =>
        exact ⟨fun _ => htool, h2, h3, h4, h5, fun _ hf => by simp at hf,
          fun la lo hla hlo => (hpin la lo hla hlo).elim, h8⟩

theorem stateInv_geoCall (cfg : ACfg) (st : AState) (c : Call) (a : Args)
    (h : StateInv cfg st) (htool : "buscarCoordenadas" ∈ st.invoked) :
    StateInv cfg (analyzeGeoCall cfg st c a) := by
  unfold analyzeGeoCall
  by_cases hHas : cfg.hasCoords = true
  · rw [if_pos hHas]
    exact ⟨h.geoInv, h.revInv, h.urbInv, h.floodInv, h.statsInv, h.geoCoords,
      h.pinned, h.radii⟩
  · rw [if_neg hHas]
    have hpin : ∀ la lo, cfg.bodyLat = some la → cfg.bodyLon = some lo → False := by
      intro la lo hla hlo
      exact hHas (by unfold ACfg.hasCoords; rw [hla, hlo]; rfl)
    dsimp only
    split_ifs with hdir
    · exact ⟨fun _ => htool, h.revInv, h.urbInv, h.floodInv, h.statsInv,
        fun _ hf => by simp at hf,
        fun la lo hla hlo => (hpin la lo hla hlo).elim, h.radii⟩
    · cases c.geoO with
      | thrown m =>
          dsimp only
          rw [analyzeCatch_geo_eq]
          exact ⟨fun _ => htool, h.revInv, h.urbInv, h.floodInv, h.statsInv,
            fun _ hf => by simp at hf,
            fun la lo hla hlo => (hpin la lo hla hlo).elim, h.radii⟩
      | ret out =>
          dsimp only
          exact stateInv_geoApply cfg _ c.id out htool h.revInv h.urbInv
            h.floodInv h.statsInv h.radii hpin


theorem stateInv_setMsgs (cfg : ACfg) (st : AState) (M : List PushedMsg)
    (h : StateInv cfg st) : StateInv cfg { st with msgs := M } :=
  ⟨h.geoInv, h.revInv, h.urbInv, h.floodInv, h.statsInv, h.geoCoords,
   h.pinned, h.radii⟩

theorem stateInv_setLims (cfg : ACfg) (st : AState) (L : List String)
    (h : StateInv cfg st) : StateInv cfg { st with limitations := L } :=
  ⟨h.geoInv, h.revInv, h.urbInv, h.floodInv, h.statsInv, h.geoCoords,
   h.pinned, h.radii⟩

theorem stateInv_coordFill (cfg : ACfg) (st : AState) (la lo : ℚ)
    (dn : Option String) (h : StateInv cfg st) :
    StateInv cfg (coordFill st la lo dn) := by
  unfold coordFill
  split_ifs with hc
  · exact ⟨h.geoInv, h.revInv, h.urbInv, h.floodInv, h.statsInv,
      fun _ _ => rfl,
      fun la' lo' hla hlo => by
        obtain ⟨dn', ad', heq⟩ := h.pinned la' lo' hla hlo
        rw [heq] at hc
        simp at hc,
      h.radii⟩
  · exact h

theorem stateInv_revCoordsMerge (cfg : ACfg) (st : AState) (out : RevOut)
    (h : StateInv cfg st) : StateInv cfg (revCoordsMerge st out) := by
  unfold revCoordsMerge
  cases hcc : st.coords with
  | none => exact ⟨h.geoInv, h.revInv, h.urbInv, h.floodInv, h.statsInv,
      h.geoCoords, h.pinned, h.radii⟩
  | some cd =>
      exact ⟨h.geoInv, h.revInv, h.urbInv, h.floodInv, h.statsInv,
        fun _ _ => rfl,
        fun la' lo' hla hlo => by
          obtain ⟨dn', ad', heq⟩ := h.pinned la' lo' hla hlo
          rw [hcc] at heq
          rcases Option.some.inj heq with rfl
          exact ⟨_, _, rfl⟩,
        h.radii⟩

theorem stateInv_statsLimits (cfg : ACfg) (st : AState) (out : StatsOut)
    (h : StateInv cfg st) : StateInv cfg (statsLimits st out) := by
  unfold statsLimits
  dsimp only
  split_ifs <;>
    exact ⟨h.geoInv, h.revInv, h.urbInv, h.floodInv, h.statsInv,
      h.geoCoords, h.pinned, h.radii⟩

theorem stateInv_urbApply (cfg : ACfg) (st : AState) (cid : String) (la lo : ℚ)
    (out : UrbOut) (h : StateInv cfg st) (htool : "capasUrbanismo" ∈ st.invoked) :
    StateInv cfg (urbApply st cid la lo out) := by
  unfold urbApply
  dsimp only
  have h1 : StateInv cfg { st with urban := some (.payload out) } :=
    ⟨h.geoInv, h.revInv, fun _ => htool, h.floodInv, h.statsInv,
     h.geoCoords, h.pinned, h.radii⟩
  have h2 := stateInv_coordFill cfg _ la lo none h1
  split_ifs with hign
  · exact stateInv_setMsgs cfg _ _ (stateInv_setLims cfg _ _ h2)
  · exact stateInv_setMsgs cfg _ _ h2

theorem stateInv_floodApply (cfg : ACfg) (st : AState) (cid : String) (la lo : ℚ)
    (out : FloodOut) (h : StateInv cfg st) (htool : "riesgoInundacion" ∈ st.invoked) :
    StateInv cfg (floodApply st cid la lo out) := by
  unfold floodApply
  dsimp only
  have h1 : StateInv cfg { st with flood := some (.payload out) } :=
    ⟨h.geoInv, h.revInv, h.urbInv, fun _ => htool, h.statsInv,
     h.geoCoords, h.pinned, h.radii⟩
  have h2 := stateInv_coordFill cfg _ la lo none h1
  split_ifs with hfb
  · exact stateInv_setMsgs cfg _ _ (stateInv_setLims cfg _ _ h2)
  · exact stateInv_setMsgs cfg _ _ h2

theorem stateInv_revApply (cfg : ACfg) (st : AState) (cid : String) (la lo : ℚ)
    (out : RevOut) (h : StateInv cfg st) :
    StateInv cfg (revApply st cid la lo out) := by
  unfold revApply
  dsimp only
  have h1 : StateInv cfg { st with reverse := some (.payload out) } :=
    ⟨h.geoInv, h.revInv, h.urbInv, h.floodInv, h.statsInv,
     h.geoCoords, h.pinned, h.radii⟩
  have h2 := stateInv_coordFill cfg _ la lo none h1
  split_ifs with hok
  · exact stateInv_setMsgs cfg _ _ (stateInv_revCoordsMerge cfg _ out h2)
  · exact stateInv_setMsgs cfg _ _ (stateInv_setLims cfg _ _ h2)

theorem stateInv_statsApply (cfg : ACfg) (st : AState) (cid : String) (la lo : ℚ)
    (displayName : Option String) (out : StatsOut)
    (h : StateInv cfg st) (htool : "cityStats" ∈ st.invoked) :
    StateInv cfg (statsApply st cid la lo displayName out) := by
  unfold statsApply
  dsimp only
  have h1 : StateInv cfg { st with stats := some (.payload out) } :=
    ⟨h.geoInv, h.revInv, h.urbInv, h.floodInv, fun _ => htool,
     h.geoCoords, h.pinned, h.radii⟩
  exact stateInv_setMsgs cfg _ _
    (stateInv_statsLimits cfg _ out (stateInv_coordFill cfg _ la lo displayName h1))

theorem stateInv_urbCall (cfg : ACfg) (st : AState) (c : Call) (a : Args)
    (h : StateInv cfg st) (htool : "capasUrbanismo" ∈ st.invoked) :
    StateInv cfg (analyzeUrbCall cfg st c a) := by
  unfold analyzeUrbCall
  cases resolveLat cfg st a.lat with
  | none =>
      cases resolveLon cfg st a.lon with
      | none =>
          exact ⟨h.geoInv, h.revInv, fun _ => htool, h.floodInv, h.statsInv,
            h.geoCoords, h.pinned, h.radii⟩
      | some lo =>
          exact ⟨h.geoInv, h.revInv, fun _ => htool, h.floodInv, h.statsInv,
            h.geoCoords, h.pinned, h.radii⟩
  | some la =>
      cases resolveLon cfg st a.lon with
      | none =>
          exact ⟨h.geoInv, h.revInv, fun _ => htool, h.floodInv, h.statsInv,
            h.geoCoords, h.pinned, h.radii⟩
      | some lo =>
          dsimp only
          have hradii : ∀ r ∈ st.capasRadii ++
              [clampNumber ((toNumber a.radius_m).getD cfg.radius) 200 5000],
              200 ≤ r ∧ r ≤ 5000 := by
            intro r hr
            rcases List.mem_append.mp hr with hr | hr
            · exact h.radii r hr
            · rcases List.mem_singleton.mp hr with rfl
              exact clampNumber_mem _
          have hst1 : StateInv cfg
              { st with capasRadii := st.capasRadii ++
                  [clampNumber ((toNumber a.radius_m).getD cfg.radius) 200 5000] } :=
            ⟨h.geoInv, h.revInv, h.urbInv, h.floodInv, h.statsInv, h.geoCoords,
             h.pinned, hradii⟩
          cases c.urbO with
          | thrown m =>
              dsimp only
              exact stateInv_catch cfg _ _ c.id m hst1 htool
          | ret out =>
              dsimp only
              exact stateInv_urbApply cfg _ c.id la lo out hst1 htool

theorem stateInv_floodCall (cfg : ACfg) (st : AState) (c : Call) (a : Args)
    (h : StateInv cfg st) (htool : "riesgoInundacion" ∈ st.invoked) :
    StateInv cfg (analyzeFloodCall cfg st c a) := by
  unfold analyzeFloodCall
  cases resolveLat cfg st a.lat with
  | none =>
      cases resolveLon cfg st a.lon with
      | none =>
          exact ⟨h.geoInv, h.revInv, h.urbInv, fun _ => htool, h.statsInv,
            h.geoCoords, h.pinned, h.radii⟩
      | some lo =>
          exact ⟨h.geoInv, h.revInv, h.urbInv, fun _ => htool, h.statsInv,
            h.geoCoords, h.pinned, h.radii⟩
  | some la =>
      cases resolveLon cfg st a.lon with
      | none =>
          exact ⟨h.geoInv, h.revInv, h.urbInv, fun _ => htool, h.statsInv,
            h.geoCoords, h.pinned, h.radii⟩
      | some lo =>
          dsimp only
          cases c.floodO with
          | thrown m =>
              dsimp only
              exact stateInv_catch cfg _ _ c.id m h htool
          | ret out =>
              dsimp only
              exact stateInv_floodApply cfg _ c.id la lo out h htool

theorem stateInv_revCall (cfg : ACfg) (st : AState) (c : Call) (a : Args)
    (h : StateInv cfg st) (htool : "reverseGeocode" ∈ st.invoked) :
    StateInv cfg (analyzeRevCall cfg st c a) := by
  unfold analyzeRevCall
  dsimp only
  have hst1 : StateInv cfg { st with reverseUsed := true } :=
    ⟨h.geoInv, fun _ => htool, h.urbInv, h.floodInv, h.statsInv, h.geoCoords,
     h.pinned, h.radii⟩
  cases resolveLat cfg { st with reverseUsed := true } a.lat with
  | none =>
      cases resolveLon cfg { st with reverseUsed := true } a.lon with
      | none =>
          exact ⟨hst1.geoInv, hst1.revInv, hst1.urbInv, hst1.floodInv,
            hst1.statsInv, hst1.geoCoords, hst1.pinned, hst1.radii⟩
      | some lo =>
          exact ⟨hst1.geoInv, hst1.revInv, hst1.urbInv, hst1.floodInv,
            hst1.statsInv, hst1.geoCoords, hst1.pinned, hst1.radii⟩
  | some la =>
      cases resolveLon cfg { st with reverseUsed := true } a.lon with
      | none =>
          exact ⟨hst1.geoInv, hst1.revInv, hst1.urbInv, hst1.floodInv,
            hst1.statsInv, hst1.geoCoords, hst1.pinned, hst1.radii⟩
      | some lo =>
          dsimp only
          cases c.revO with
          | thrown m =>
              dsimp only
              exact stateInv_catch cfg _ _ c.id m hst1 htool
          | ret out =>
              dsimp only
              exact stateInv_revApply cfg _ c.id la lo out hst1

theorem stateInv_statsCall (cfg : ACfg) (st : AState) (c : Call) (a : Args)
    (h : StateInv cfg st) (htool : "cityStats" ∈ st.invoked) :
    StateInv cfg (analyzeStatsCall cfg st c a) := by
  unfold analyzeStatsCall
  cases resolveLat cfg st a.lat with
  | none =>
      cases resolveLon cfg st a.lon with
      | none =>
          exact ⟨h.geoInv, h.revInv, h.urbInv, h.floodInv, fun _ => htool,
            h.geoCoords, h.pinned, h.radii⟩
      | some lo =>
          exact ⟨h.geoInv, h.revInv, h.urbInv, h.floodInv, fun _ => htool,
            h.geoCoords, h.pinned, h.radii⟩
  | some la =>
      cases resolveLon cfg st a.lon with
      | none =>
          exact ⟨h.geoInv, h.revInv, h.urbInv, h.floodInv, fun _ => htool,
            h.geoCoords, h.pinned, h.radii⟩
      | some lo =>
          dsimp only
          have hst1 : StateInv cfg
              { st with statsCalls := st.statsCalls ++
                  [((asNonblankString a.name_hint <|>
                      pickPlaceName
                        ((readRevAddress st.reverse) <|> (st.coords.bind (fun cd => cd.address)))
                        ((readRevDisplay st.reverse) <|> (st.coords.bind (fun cd => cd.display_name))) <|>
                      cfg.bodyAddress),
                    ((asString a.country_code) <|>
                      (((readRevAddress st.reverse) <|> (st.coords.bind (fun cd => cd.address))).bind
                        (fun ad => ad.country_code))),
                    ((asString a.wikidata_id) <|> readRevWikidata st.reverse))] } :=
            ⟨h.geoInv, h.revInv, h.urbInv, h.floodInv, h.statsInv, h.geoCoords,
             h.pinned, h.radii⟩
          cases c.statsO with
          | thrown m =>
              dsimp only
              exact stateInv_catch cfg _ _ c.id m hst1 htool
          | ret out =>
              dsimp only
              exact stateInv_statsApply cfg _ c.id la lo _ out hst1 htool

theorem stateInv_processCall (cfg : ACfg) (st : AState) (c : Call)
    (h : StateInv cfg st) : StateInv cfg (processCall cfg st c) := by
  unfold processCall
  by_cases hfn : c.typeFn = false
  · rw [if_pos hfn]
    exact h
  · rw [if_neg hfn]
    cases hargs : c.args with
    | none =>
        dsimp only
        exact ⟨h.geoInv, h.revInv, h.urbInv, h.floodInv, h.statsInv,
          h.geoCoords, h.pinned, h.radii⟩
    | some a =>
        dsimp only
        have hst1 : StateInv cfg { st with invoked := st.invoked ++ [c.name] } :=
          ⟨fun hf => List.mem_append_left _ (h.geoInv hf),
           fun hf => List.mem_append_left _ (h.revInv hf),
           fun hf => List.mem_append_left _ (h.urbInv hf),
           fun hf => List.mem_append_left _ (h.floodInv hf),
           fun hf => List.mem_append_left _ (h.statsInv hf),
           h.geoCoords, h.pinned, h.radii⟩
        have hmem : c.name ∈ st.invoked ++ [c.name] :=
          List.mem_append_right _ (List.mem_singleton_self c.name)
        split_ifs with hn1 hn2 hn3 hn4 hn5
        · exact stateInv_geoCall cfg _ c a hst1 (hn1 ▸ hmem)
        · exact stateInv_urbCall cfg _ c a hst1 (hn2 ▸ hmem)
        · exact stateInv_floodCall cfg _ c a hst1 (hn3 ▸ hmem)
        · exact stateInv_revCall cfg _ c a hst1 (hn4 ▸ hmem)
        · exact stateInv_statsCall cfg _ c a hst1 (hn5 ▸ hmem)
        · exact ⟨hst1.geoInv, hst1.revInv, hst1.urbInv, hst1.floodInv,
            hst1.statsInv, hst1.geoCoords, hst1.pinned, hst1.radii⟩

theorem stateInv_foldCalls (cfg : ACfg) :
    ∀ (calls : List Call) (st : AState), StateInv cfg st →
      StateInv cfg (calls.foldl (processCall cfg) st)
  | [], st, h => h
  | c :: cs, st, h =>
      stateInv_foldCalls cfg cs (processCall cfg st c) (stateInv_processCall cfg st c h)

theorem stateInv_init (cfg : ACfg) : StateInv cfg (initAState cfg) := by
  unfold initAState
  cases hla : cfg.bodyLat with
  | none =>
      exact ⟨fun hf => by simp at hf, fun hf => by simp at hf,
        fun hf => by simp at hf, fun hf => by simp at hf, fun hf => by simp at hf,
        fun hf => by simp at hf,
        fun la lo hla' hlo => by rw [hla] at hla'; exact Option.noConfusion hla',
        fun r hr => by simp at hr⟩
  | some la =>
      cases hlo : cfg.bodyLon with
      | none =>
          exact ⟨fun hf => by simp at hf, fun hf => by simp at hf,
            fun hf => by simp at hf, fun hf => by simp at hf, fun hf => by simp at hf,
            fun hf => by simp at hf,
            fun la' lo' hla' hlo' => by rw [hlo] at hlo'; exact Option.noConfusion hlo',
            fun r hr => by simp at hr⟩
      | some lo =>
          exact ⟨fun hf => by simp at hf, fun hf => by simp at hf,
            fun hf => by simp at hf, fun hf => by simp at hf, fun hf => by simp at hf,
            fun hf => by simp at hf,
            fun la' lo' hla' hlo' => by
              rw [hla] at hla'; rw [hlo] at hlo'
              rcases Option.some.inj hla' with rfl
              rcases Option.some.inj hlo' with rfl
              exact ⟨none, none, rfl⟩,
            fun r hr => by simp at hr⟩


theorem processFinal_inl_success (cfg : ACfg) (st : AState) (report : String)
    (r : AResp) (fin : AState)
    (h : processFinal cfg st report = Sum.inl (.success r fin)) :
    fin = st ∧ r = mkAResp st report ∧ missingTools cfg st = [] ∧
    hasRequiredHeadings report = true ∧
    ¬(cfg.geocodeRequired = true ∧ st.coords.isNone = true ∧
      st.geocodeFailed = true) := by
  unfold processFinal at h
  by_cases h422 : cfg.geocodeRequired = true ∧ st.coords.isNone = true ∧
      st.geocodeFailed = true
  · rw [if_pos h422] at h
    exact AOutcome.noConfusion (Sum.inl.inj h)
  · rw [if_neg h422] at h
    by_cases hmiss : missingTools cfg st ≠ []
    · rw [if_pos hmiss] at h
      exact Sum.noConfusion h
    · rw [if_neg hmiss] at h
      by_cases hhead : hasRequiredHeadings report = false
      · rw [if_pos hhead] at h
        exact Sum.noConfusion h
      · rw [if_neg hhead] at h
        have hinj := Sum.inl.inj h
        injection hinj with hr hf
        exact ⟨hf.symm, hr.symm, not_ne_iff.mp hmiss, by simpa using hhead, h422⟩

theorem processFinal_inr (cfg : ACfg) (st : AState) (report : String)
    (st' : AState) (h : processFinal cfg st report = Sum.inr st') :
    st' = { st with msgs := st.msgs ++ [PushedMsg.corrective] } := by
  unfold processFinal at h
  by_cases h422 : cfg.geocodeRequired = true ∧ st.coords.isNone = true ∧
      st.geocodeFailed = true
  · rw [if_pos h422] at h
    exact Sum.noConfusion h
  · rw [if_neg h422] at h
    by_cases hmiss : missingTools cfg st ≠ []
    · rw [if_pos hmiss] at h
      exact (Sum.inr.inj h).symm
    · rw [if_neg hmiss] at h
      by_cases hhead : hasRequiredHeadings report = false
      · rw [if_pos hhead] at h
        exact (Sum.inr.inj h).symm
      · rw [if_neg hhead] at h
        exact Sum.noConfusion h

theorem analyzeLoop_success (cfg : ACfg) :
    ∀ (fuel : Nat) (st : AState) (script : List Turn) (r : AResp) (fin : AState),
      StateInv cfg st →
      analyzeLoop cfg st script fuel = .success r fin →
      StateInv cfg fin ∧ missingTools cfg fin = [] ∧
      hasRequiredHeadings r.report_markdown = true ∧
      r = mkAResp fin r.report_markdown ∧
      ¬(cfg.geocodeRequired = true ∧ fin.coords.isNone = true ∧
        fin.geocodeFailed = true) := by
  intro fuel
  induction fuel with
  | zero =>
      intro st script r fin hinv hrun
      simp [analyzeLoop] at hrun
  | succ fuel ih =>
      intro st script r fin hinv hrun
      cases script with
      | nil => simp [analyzeLoop] at hrun
      | cons t ts =>
          cases t with
          | noMsg => simp [analyzeLoop] at hrun
          | msg m =>
              rw [analyzeLoop] at hrun
              dsimp only at hrun
              have hinv1 : StateInv cfg
                  { st with msgs := st.msgs ++ [PushedMsg.assistant] } :=
                stateInv_setMsgs cfg st _ hinv
              by_cases hcalls : m.toolCalls = []
              · rw [if_pos hcalls] at hrun
                cases hpf : processFinal cfg
                    { st with msgs := st.msgs ++ [PushedMsg.assistant] }
                    (m.content.getD "") with
                | inl out =>
                    rw [hpf] at hrun
                    dsimp only at hrun
                    subst hrun
                    obtain ⟨hfin, hr, hmiss, hhead, h422⟩ :=
                      processFinal_inl_success cfg _ _ r fin hpf
                    subst hfin
                    have hrep : r.report_markdown = m.content.getD "" := by
                      rw [hr]; rfl
                    refine ⟨hinv1, hmiss, ?_, ?_, h422⟩
                    · rw [hrep]; exact hhead
                    · rw [hr]; rfl
                | inr st' =>
                    rw [hpf] at hrun
                    dsimp only at hrun
                    have hst' := processFinal_inr cfg _ _ _ hpf
                    subst hst'
                    exact ih _ ts r fin (stateInv_setMsgs cfg _ _ hinv1) hrun
              · rw [if_neg hcalls] at hrun
                have hinv2 : StateInv cfg
                    (m.toolCalls.foldl (processCall cfg)
                      { st with msgs := st.msgs ++ [PushedMsg.assistant] }) :=
                  stateInv_foldCalls cfg _ _ hinv1
                by_cases h422 : cfg.geocodeRequired = true ∧
                    (m.toolCalls.foldl (processCall cfg)
                      { st with msgs := st.msgs ++ [PushedMsg.assistant] }).coords.isNone = true ∧
                    (m.toolCalls.foldl (processCall cfg)
                      { st with msgs := st.msgs ++ [PushedMsg.assistant] }).geocodeFailed = true
                · rw [if_pos h422] at hrun
                  exact AOutcome.noConfusion hrun
                · rw [if_neg h422] at hrun
                  exact ih _ ts r fin hinv2 hrun

theorem analyzeRun_success (cfg : ACfg) (script : List Turn) (r : AResp)
    (fin : AState) (h : analyzeRun cfg script = .success r fin) :
    StateInv cfg fin ∧ missingTools cfg fin = [] ∧
    hasRequiredHeadings r.report_markdown = true ∧
    r = mkAResp fin r.report_markdown ∧
    ¬(cfg.geocodeRequired = true ∧ fin.coords.isNone = true ∧
      fin.geocodeFailed = true) ∧
    ¬(cfg.hasCoords = false ∧ cfg.hasAddress = false) := by
  unfold analyzeRun at h
  by_cases hbad : cfg.hasCoords = false ∧ cfg.hasAddress = false
  · rw [if_pos hbad] at h
    exact AOutcome.noConfusion h
  · rw [if_neg hbad] at h
    obtain ⟨h1, h2, h3, h4, h5⟩ :=
      analyzeLoop_success cfg 6 (initAState cfg) script r fin (stateInv_init cfg) h
    exact ⟨h1, h2, h3, h4, h5, hbad⟩

theorem reduceOption_nil_forall {α : Type} :
    ∀ (l : List (Option α)), l.reduceOption = [] → ∀ x ∈ l, x = none := by
  intro l
  induction l with
  | nil => simp
  | cons a as ihp =>
      intro h x hx
      cases a with
      | none =>
          rw [List.reduceOption_cons_of_none] at h
          rcases List.mem_cons.mp hx with rfl | hx'
          · rfl
          · exact ihp h x hx'
      | some v =>
          rw [List.reduceOption_cons_of_some] at h
          exact absurd h (List.cons_ne_nil _ _)

theorem missingTools_nil (cfg : ACfg) (st : AState)
    (h : missingTools cfg st = []) :
    (cfg.geocodeRequired = true → st.geocodeUsed = true) ∧
    (st.coords.isSome = true → st.reverseUsed = true) ∧
    st.urban.isSome = true ∧ st.flood.isSome = true ∧
    (st.coords.isSome = true → st.stats.isSome = true) := by
  unfold missingTools at h
  have hall := reduceOption_nil_forall _ h
  have e1 := hall _ (by simp : (if cfg.geocodeRequired = true ∧ st.geocodeUsed = false
    then some ("buscarCoordenadas") else none) ∈ _)
  have e2 := hall _ (by simp : (if st.coords.isSome = true ∧ st.reverseUsed = false
    then some ("reverseGeocode") else none) ∈ _)
  have e3 := hall _ (by simp : (if st.urban.isNone = true
    then some ("capasUrbanismo") else none) ∈ _)
  have e4 := hall _ (by simp : (if st.flood.isNone = true
    then some ("riesgoInundacion") else none) ∈ _)
  have e5 := hall _ (by simp : (if st.coords.isSome = true ∧ st.stats.isNone = true
    then some ("cityStats") else none) ∈ _)
  refine ⟨?_, ?_, ?_, ?_, ?_⟩
  · intro hreq
    cases hg : st.geocodeUsed with
    | true => rfl
    | false =>
        rw [hg] at e1
        rw [if_pos ⟨hreq, rfl⟩] at e1
        exact Option.noConfusion e1
  · intro hsome
    cases hg : st.reverseUsed with
    | true => rfl
    | false =>
        rw [hg] at e2
        rw [if_pos ⟨hsome, rfl⟩] at e2
        exact Option.noConfusion e2
  · cases hu : st.urban with
    | some _ => rfl
    | none =>
        rw [hu] at e3
        simp at e3
  · cases hf : st.flood with
    | some _ => rfl
    | none =>
        rw [hf] at e4
        simp at e4
  · intro hsome
    cases hs : st.stats with
    | some _ => rfl
    | none =>
        rw [hs] at e5
        simp [hsome] at e5

theorem analyzeRun_success_coords (cfg : ACfg) (script : List Turn) (r : AResp)
    (fin : AState) (h : analyzeRun cfg script = .success r fin) :
    fin.coords.isSome = true := by
  obtain ⟨hinv, hmiss, _, _, h422, hbad⟩ := analyzeRun_success cfg script r fin h
  by_cases hHas : cfg.hasCoords = true
  · unfold ACfg.hasCoords at hHas
    rw [Bool.and_eq_true] at hHas
    obtain ⟨la, hla⟩ := Option.isSome_iff_exists.mp hHas.1
    obtain ⟨lo, hlo⟩ := Option.isSome_iff_exists.mp hHas.2
    obtain ⟨dn, ad, heq⟩ := hinv.pinned la lo hla hlo
    rw [heq]
    rfl
  · have hreq : cfg.geocodeRequired = true := by
      unfold ACfg.geocodeRequired
      have hc : cfg.hasCoords = false := by
        cases hcc : cfg.hasCoords
        · rfl
        · exact absurd hcc hHas
      have ha : cfg.hasAddress = true := by
        cases hca : cfg.hasAddress
        · exact absurd ⟨hc, hca⟩ hbad
        · rfl
      rw [hc, ha]
      rfl
    have hused := (missingTools_nil cfg fin hmiss).1 hreq
    by_cases hfail : fin.geocodeFailed = true
    · by_contra hcs
      exact h422 ⟨hreq, by simpa [Option.isNone_iff_eq_none, Option.not_isSome_iff_eq_none] using hcs, hfail⟩
    · exact hinv.geoCoords hused (by simpa using hfail)

/- ## Outcome projections and concrete runs used by witnesses -/

/-- Response of a success outcome (dummy otherwise). -/
def successResp : AOutcome → AResp
  | .success r _ => r
  | _ => { coords := none, urban := none, flood := none, stats := none,
           report_markdown := "", limitations := [] }

/-- Final session state of a success outcome (dummy otherwise). -/
def successState : AOutcome → AState
  | .success _ fin => fin
  | _ => {}

/-- Whether an analyze outcome is the `ok: true` response. -/
def isSuccess : AOutcome → Bool
  | .success _ _ => true
  | _ => false

/-- A fully compliant report: every required heading on its own line. -/
def goodReport : String :=
  "## Descripcion de zona\ntexto\n## Infraestructura cercana\ntexto\n" ++
  "## Riesgos relevantes\ntexto\n## Posibles usos urbanos\ntexto\n" ++
  "## Recomendacion final\ntexto\n## Fuentes consultadas\ntexto\n## Limitaciones\ntexto"

/-- A report accepted by the heading regex although no single line of it is
a `## <heading>` Markdown heading: each `##` sits on the line before its
heading text, and the regex `\s+` matches across the line break. -/
def deviousReport : String :=
  "##\nDescripcion de zona\n##\nInfraestructura cercana\n##\nRiesgos relevantes\n" ++
  "##\nPosibles usos urbanos\n##\nRecomendacion final\n##\nFuentes consultadas\n##\nLimitaciones"

/-- Request body with coordinates. -/
def wCoordCfg : ACfg :=
  { bodyLat := some (39 : ℚ), bodyLon := some (-(1 : ℚ)),
    bodyRadius := some 1200 }

/-- Request body with an address only. -/
def wAddrCfg : ACfg := { bodyAddress := some ("Plaza del Ayuntamiento, Valencia") }

/-- Arguments carrying the request coordinates. -/
def wLatLonArgs : Args :=
  { lat := .jnum (39 : ℚ), lon := .jnum (-(1 : ℚ)) }

/-- One batch invoking the four coordinate tools with benign results. -/
def wToolsTurn : Turn :=
  .msg { toolCalls :=
    [ { id := "c1", name := "reverseGeocode", args := some wLatLonArgs,
        revO := .ret { ok := true, display_name := some ("Plaza del Ayuntamiento") } },
      { id := "c2", name := "capasUrbanismo",
        args := some { wLatLonArgs with radius_m := .jnum 1200 },
        urbO := .ret {} },
      { id := "c3", name := "riesgoInundacion", args := some wLatLonArgs,
        floodO := .ret { ok := true, fallback_used := false } },
      { id := "c4", name := "cityStats", args := some wLatLonArgs,
        statsO := .ret { ok := true, population := some 800000, area_km2 := some 134 } } ] }

/-- Coordinate run ending in a compliant report. -/
def wCoordScript : List Turn :=
  [wToolsTurn, .msg { content := some goodReport }]

/-- Coordinate run ending in the devious report. -/
def wDeviousScript : List Turn :=
  [wToolsTurn, .msg { content := some deviousReport }]

/- ## C1 -/

/-- C1 (amended): every success response of the analyze orchestrator was
produced only after every mandatory tool of the run was dispatched at least
once (recorded in the debug trace `invoked`, regardless of the call's
outcome), and its report passes the orchestrator's heading regex — for each
required heading, `##` at a line start followed by whitespace (which the
regex lets span a line break), the heading text case-insensitively, and
trailing whitespace up to the line end. -/
theorem analyze_success_tools_and_headings (cfg : ACfg) (script : List Turn)
    (r : AResp) (fin : AState) (h : analyzeRun cfg script = .success r fin) :
    (cfg.geocodeRequired = true → "buscarCoordenadas" ∈ fin.invoked) ∧
    "reverseGeocode" ∈ fin.invoked ∧ "capasUrbanismo" ∈ fin.invoked ∧
    "riesgoInundacion" ∈ fin.invoked ∧ "cityStats" ∈ fin.invoked ∧
    hasRequiredHeadings r.report_markdown = true := by
  obtain ⟨hinv, hmiss, hhead, hresp, h422, hbad⟩ :=
    analyzeRun_success cfg script r fin h
  obtain ⟨m1, m2, m3, m4, m5⟩ := missingTools_nil cfg fin hmiss
  have hcs := analyzeRun_success_coords cfg script r fin h
  exact ⟨fun hreq => hinv.geoInv (m1 hreq), hinv.revInv (m2 hcs),
    hinv.urbInv m3, hinv.floodInv m4, hinv.statsInv (m5 hcs), hhead⟩

/-- Witness for C1's theorem at a concrete successful coordinate run. -/
theorem analyze_success_tools_and_headings_witness :
    (wCoordCfg.geocodeRequired = true →
      "buscarCoordenadas" ∈ (successState (analyzeRun wCoordCfg wCoordScript)).invoked) ∧
    "reverseGeocode" ∈ (successState (analyzeRun wCoordCfg wCoordScript)).invoked ∧
    "capasUrbanismo" ∈ (successState (analyzeRun wCoordCfg wCoordScript)).invoked ∧
    "riesgoInundacion" ∈ (successState (analyzeRun wCoordCfg wCoordScript)).invoked ∧
    "cityStats" ∈ (successState (analyzeRun wCoordCfg wCoordScript)).invoked ∧
    hasRequiredHeadings (successResp (analyzeRun wCoordCfg wCoordScript)).report_markdown = true :=
  analyze_success_tools_and_headings wCoordCfg wCoordScript
    (successResp (analyzeRun wCoordCfg wCoordScript))
    (successState (analyzeRun wCoordCfg wCoordScript))
    (by rfl)

/-- Counterexample to C1 as stated: a run that returns `ok: true` although
no line of its report is a level-2 Markdown heading line — the orchestrator
regex accepts `##` on one line with the heading text on the next, so the
"each on its own line" reading of the heading contract does not hold of
every accepted report. -/
theorem analyze_success_heading_own_line_counterexample :
    isSuccess (analyzeRun wCoordCfg wDeviousScript) = true ∧
    headingsEachOnOwnLine analyzeRequiredHeadings
      (successResp (analyzeRun wCoordCfg wDeviousScript)).report_markdown = false := by
  decide

/- ## C9 -/

/-- C9: when the request supplies numeric `lat`/`lon`, every success
response carries exactly those coordinate numbers — tool dispatch may fill
`display_name` and `address` but never overwrites the caller-supplied
numbers. -/
theorem analyze_coords_pinned (cfg : ACfg) (script : List Turn) (r : AResp)
    (fin : AState) (la lo : ℚ) (hla : cfg.bodyLat = some la)
    (hlo : cfg.bodyLon = some lo) (h : analyzeRun cfg script = .success r fin) :
    ∃ dn ad, r.coords = some { lat := la, lon := lo, display_name := dn, address := ad } := by
  obtain ⟨hinv, _, _, hresp, _, _⟩ := analyzeRun_success cfg script r fin h
  obtain ⟨dn, ad, heq⟩ := hinv.pinned la lo hla hlo
  refine ⟨dn, ad, ?_⟩
  rw [hresp]
  exact heq

/-- Witness for C9's theorem at the concrete coordinate run. -/
theorem analyze_coords_pinned_witness :
    ∃ dn ad, (successResp (analyzeRun wCoordCfg wCoordScript)).coords =
      some { lat := (39 : ℚ), lon := -(1 : ℚ), display_name := dn, address := ad } :=
  analyze_coords_pinned wCoordCfg wCoordScript
    (successResp (analyzeRun wCoordCfg wCoordScript))
    (successState (analyzeRun wCoordCfg wCoordScript))
    39 (-(1 : ℚ)) (by rfl) (by rfl) (by rfl)

/- ## C2 -/

/-- `hasCoords` implies `geocodeRequired = false`. -/
theorem geocodeRequired_false_of_hasCoords (cfg : ACfg)
    (h : cfg.hasCoords = true) : cfg.geocodeRequired = false := by
  unfold ACfg.geocodeRequired
  rw [h]
  simp

/-- A turn that issues at least one tool call. -/
def isCallsTurn : Turn → Bool
  | .msg m => !m.toolCalls.isEmpty
  | .noMsg => false

theorem analyzeLoop_calls_exhaust (cfg : ACfg)
    (hreq : cfg.geocodeRequired = false) :
    ∀ (fuel : Nat) (st : AState) (script : List Turn),
      (∀ t ∈ script.take fuel, isCallsTurn t = true) → script.length ≥ fuel →
      analyzeLoop cfg st script fuel = .stepsExhausted := by
  intro fuel
  induction fuel with
  | zero =>
      intro st script _ _
      simp [analyzeLoop]
  | succ fuel ih =>
      intro st script hall hlen
      cases script with
      | nil => simp at hlen
      | cons t ts =>
          cases t with
          | noMsg =>
              have h1 := hall Turn.noMsg (by
                rw [List.take_succ_cons]
                exact List.mem_cons_self _ _)
              simp [isCallsTurn] at h1
          | msg m =>
              have h1 := hall (Turn.msg m) (by
                rw [List.take_succ_cons]
                exact List.mem_cons_self _ _)
              simp [isCallsTurn] at h1
              have hne : m.toolCalls ≠ [] := by
                intro hc
                rw [hc] at h1
                simp at h1
              rw [analyzeLoop]
              dsimp only
              rw [if_neg hne]
              rw [if_neg (by simp [hreq])]
              refine ih _ ts ?_ ?_
              · intro t' ht'
                refine hall t' ?_
                rw [List.take_succ_cons]
                exact List.mem_cons_of_mem _ ht'
              · simpa using Nat.succ_le_succ_iff.mp hlen

/-- C2 (amended): in the analyze orchestrator a run that exhausts the
6-step bound without an accepted report terminates with the step-exhaustion
server error, and no success response ever carries a report failing the
heading regex.  The two-attempt comparison composition, however, returns
`ok: true` with the second attempt's report even when it fails the heading
contract (see the counterexample). -/
theorem analyze_step_bound (cfg : ACfg) (script : List Turn) :
    (∀ (r : AResp) (fin : AState), analyzeRun cfg script = .success r fin →
      hasRequiredHeadings r.report_markdown = true) ∧
    (cfg.hasCoords = true → (∀ t ∈ script.take 6, isCallsTurn t = true) →
      script.length ≥ 6 → analyzeRun cfg script = .stepsExhausted) := by
  constructor
  · intro r fin h
    exact (analyzeRun_success cfg script r fin h).2.2.1
  · intro hHas hall hlen
    unfold analyzeRun
    rw [if_neg (by simp [hHas])]
    exact analyzeLoop_calls_exhaust cfg
      (geocodeRequired_false_of_hasCoords cfg hHas) 6 _ script hall hlen

/-- A six-batch script that never produces a final report. -/
def wSixCallScript : List Turn :=
  List.replicate 6 wToolsTurn

/-- Witness for C2's theorem: the heading guarantee at the concrete
successful run, and step exhaustion on six consecutive tool-call turns. -/
theorem analyze_step_bound_witness :
    hasRequiredHeadings (successResp (analyzeRun wCoordCfg wCoordScript)).report_markdown = true ∧
    analyzeRun wCoordCfg wSixCallScript = .stepsExhausted :=
  ⟨(analyze_step_bound wCoordCfg wCoordScript).1
      (successResp (analyzeRun wCoordCfg wCoordScript))
      (successState (analyzeRun wCoordCfg wCoordScript)) (by rfl),
   (analyze_step_bound wCoordCfg wSixCallScript).2 (by rfl)
      (by decide) (by decide)⟩

/-- Whether a compare outcome is the `ok: true` response. -/
def isCompareOk : COutcome → Bool
  | .ok _ _ _ _ => true
  | .serverError _ => false

/-- The report of a compare `ok: true` response. -/
def compareReport : COutcome → String
  | .ok rep _ _ _ => rep
  | .serverError _ => ""

/-- Counterexample to C2 as stated: the comparison route exhausts its two
attempts with non-compliant reports and still returns `ok: true` carrying a
report that fails the required-heading contract — it never surfaces the
step-exhaustion 500. -/
theorem compare_step_bound_counterexample :
    isCompareOk (compareRun 1 2 3 4 {} {} ("") ("")) = true ∧
    compareReport (compareRun 1 2 3 4 {} {} ("") ("")) = "" ∧
    compareHasRequiredHeadings "" = false := by
  refine ⟨by rfl, by rfl, by decide⟩

/- ## C3 -/

/-- C3 (amended): on an address-only run, once a tool batch finishes with
the geocode-failure flag set and the session coordinates still unresolved,
the loop aborts immediately with the 422 unprocessable-input error (no
further model turn is issued), which is distinct from the 400
malformed-input and the 500 step-bound outcomes.  Coordinate-dependent
adapters dispatched in the same batch are still invoked, and a later call
in the batch can resolve coordinates from model-supplied arguments, in
which case the run continues (see the counterexample). -/
theorem analyze_geocode_deadend (cfg : ACfg) (st : AState) (m : TurnMsg)
    (ts : List Turn) (fuel : Nat)
    (hreq : cfg.geocodeRequired = true) (hcalls : m.toolCalls ≠ [])
    (hfail : (m.toolCalls.foldl (processCall cfg)
      { st with msgs := st.msgs ++ [PushedMsg.assistant] }).geocodeFailed = true)
    (hnone : (m.toolCalls.foldl (processCall cfg)
      { st with msgs := st.msgs ++ [PushedMsg.assistant] }).coords = none) :
    analyzeLoop cfg st (Turn.msg m :: ts) (fuel + 1) = .unprocessable ∧
    AOutcome.unprocessable ≠ AOutcome.badRequest ∧
    AOutcome.unprocessable ≠ AOutcome.stepsExhausted := by
  refine ⟨?_, by decide, by decide⟩
  rw [analyzeLoop]
  dsimp only
  rw [if_neg hcalls]
  rw [if_pos ⟨hreq, by rw [hnone]; rfl, hfail⟩]

/-- A batch consisting only of a failed geocode lookup. -/
def wGeoFailOnlyTurnMsg : TurnMsg :=
  { toolCalls := [
      { id := "g1", name := "buscarCoordenadas",
        args := some { direccion := .jstr ("Plaza del Ayuntamiento, Valencia") none },
        geoO := .ret { found := false } } ] }

/-- Witness for C3's theorem: an address-only run whose only batch is the
failed geocode lookup aborts with the 422. -/
theorem analyze_geocode_deadend_witness :
    analyzeLoop wAddrCfg (initAState wAddrCfg)
      (Turn.msg wGeoFailOnlyTurnMsg :: [Turn.msg { content := some goodReport }]) 6 =
      .unprocessable ∧
    AOutcome.unprocessable ≠ AOutcome.badRequest ∧
    AOutcome.unprocessable ≠ AOutcome.stepsExhausted :=
  analyze_geocode_deadend wAddrCfg (initAState wAddrCfg) wGeoFailOnlyTurnMsg
    [Turn.msg { content := some goodReport }] 5 (by rfl) (by decide)
    (by rfl) (by rfl)

/-- A batch where the geocode lookup definitively fails and the model then
calls the coordinate tools with its own numeric arguments. -/
def wGeoFailBatchTurn : Turn :=
  .msg { toolCalls :=
    ({ id := "g1", name := "buscarCoordenadas",
       args := some { direccion := .jstr ("Plaza del Ayuntamiento, Valencia") none },
       geoO := .ret { found := false } } : Call) ::
    (match wToolsTurn with
     | .msg m => m.toolCalls
     | .noMsg => []) }

/-- The address-only run whose geocoding fails but whose batch then sets
coordinates from model-supplied arguments and ends in a compliant report. -/
def wAddrScript : List Turn :=
  [wGeoFailBatchTurn, .msg { content := some goodReport }]

/-- Counterexample to C3 as stated: an address-only run where geocoding
definitively fails (`found: false`), yet coordinate-dependent adapters are
invoked in the same batch and the run ends in `ok: true` rather than the
422 — the later `capasUrbanismo` call set the session coordinates from the
model-supplied arguments, defusing the dead-end check. -/
theorem analyze_geocode_deadend_counterexample :
    (successState (analyzeRun wAddrCfg wAddrScript)).geocodeFailed = true ∧
    isSuccess (analyzeRun wAddrCfg wAddrScript) = true ∧
    "capasUrbanismo" ∈ (successState (analyzeRun wAddrCfg wAddrScript)).invoked ∧
    "reverseGeocode" ∈ (successState (analyzeRun wAddrCfg wAddrScript)).invoked ∧
    analyzeRun wAddrCfg wAddrScript ≠ .unprocessable := by
  refine ⟨by rfl, by rfl, by decide, by decide, ?_⟩
  intro hc
  have : isSuccess (analyzeRun wAddrCfg wAddrScript) = true := by rfl
  rw [hc] at this
  simp [isSuccess] at this

/- ## C6 -/

/-- C6 (amended): in the primary analyze orchestrator a tool call whose
JSON arguments fail to parse produces exactly one tagged error tool-result
message keyed to that call id plus exactly one limitations entry, leaves
every other piece of session state untouched, and the remaining calls of
the batch are still processed; the legacy analyze routine, however, parses
arguments outside its per-call try/catch, so there a malformed-args call
throws and aborts the whole run. -/
theorem analyze_malformed_args (cfg : ACfg) (st : AState) (c : Call)
    (cs : List Call) (lst : LState)
    (hfn : c.typeFn = true) (hargs : c.args = none) :
    processCall cfg st c =
      { st with
        limitations := st.limitations ++ ["Args invalidos para " ++ c.name],
        msgs := st.msgs ++ [PushedMsg.toolErr c.id ("Argumentos JSON invalidos para tool")] } ∧
    (c :: cs).foldl (processCall cfg) st =
      cs.foldl (processCall cfg)
        { st with
          limitations := st.limitations ++ ["Args invalidos para " ++ c.name],
          msgs := st.msgs ++ [PushedMsg.toolErr c.id ("Argumentos JSON invalidos para tool")] } ∧
    processCallLegacy cfg lst c = Except.error ("Unexpected token in JSON") := by
  have hone : processCall cfg st c =
      { st with
        limitations := st.limitations ++ ["Args invalidos para " ++ c.name],
        msgs := st.msgs ++ [PushedMsg.toolErr c.id ("Argumentos JSON invalidos para tool")] } := by
    unfold processCall
    rw [if_neg (by simp [hfn])]
    rw [hargs]
  refine ⟨hone, ?_, ?_⟩
  · rw [List.foldl_cons, hone]
  · unfold processCallLegacy
    rw [if_neg (by simp [hfn])]
    rw [hargs]

/-- A malformed-arguments call addressed to `capasUrbanismo`. -/
def wBadArgsCall : Call := { id := "bad1", name := "capasUrbanismo", args := none }

/-- Witness for C6's theorem at the malformed call. -/
theorem analyze_malformed_args_witness :
    processCall wCoordCfg (initAState wCoordCfg) wBadArgsCall =
      { initAState wCoordCfg with
        limitations := (initAState wCoordCfg).limitations ++
          ["Args invalidos para " ++ wBadArgsCall.name],
        msgs := (initAState wCoordCfg).msgs ++
          [PushedMsg.toolErr wBadArgsCall.id ("Argumentos JSON invalidos para tool")] } ∧
    (wBadArgsCall :: []).foldl (processCall wCoordCfg) (initAState wCoordCfg) =
      [].foldl (processCall wCoordCfg)
        { initAState wCoordCfg with
          limitations := (initAState wCoordCfg).limitations ++
            ["Args invalidos para " ++ wBadArgsCall.name],
          msgs := (initAState wCoordCfg).msgs ++
            [PushedMsg.toolErr wBadArgsCall.id ("Argumentos JSON invalidos para tool")] } ∧
    processCallLegacy wCoordCfg {} wBadArgsCall =
      Except.error ("Unexpected token in JSON") :=
  analyze_malformed_args wCoordCfg (initAState wCoordCfg) wBadArgsCall [] {}
    (by rfl) (by rfl)

/-- A legacy run: one malformed-args call, then a turn that would finish. -/
def wLegacyScript : List Turn :=
  [.msg { toolCalls := [wBadArgsCall] }, .msg { content := some ("informe") }]

/-- Counterexample to C6 as stated: in the legacy analyze routine (an
orchestration routine that dispatches model tool calls) the malformed-args
call does not yield a tagged tool message and a continued run — the whole
request aborts with the outer-catch 500. -/
theorem analyze_malformed_args_counterexample :
    analyzeLegacyRun wCoordCfg wLegacyScript =
      LOutcome.serverError ("Unexpected token in JSON") ∧
    analyzeLegacyRun wCoordCfg [.msg { content := some ("informe") }] =
      LOutcome.success ("informe")
        { coords := some { lat := 39, lon := -(1 : ℚ) },
          msgs := [PushedMsg.assistant] } := by
  exact ⟨by rfl, by rfl⟩

/- ## C10 -/

theorem coordFill_capasRadii (st : AState) (la lo : ℚ) (dn : Option String) :
    (coordFill st la lo dn).capasRadii = st.capasRadii := by
  unfold coordFill
  split_ifs <;> rfl

theorem urbApply_capasRadii (st : AState) (cid : String) (la lo : ℚ)
    (out : UrbOut) : (urbApply st cid la lo out).capasRadii = st.capasRadii := by
  unfold urbApply
  dsimp only
  split_ifs with hign <;> simp [coordFill_capasRadii]

/-- C10: any `capasUrbanismo` tool call that reaches the adapter passes it
the radius `clampNumber(toNumber(args.radius_m) ?? (body.radius_m ?? 1200),
200, 5000)` — recorded in the `capasRadii` trace — and every radius in the
trace of any run state reachable from a valid start lies in [200, 5000]. -/
theorem capas_radius_clamped :
    (∀ (cfg : ACfg) (st : AState) (c : Call) (a : Args) (la lo : ℚ),
      c.typeFn = true → c.args = some a → c.name = "capasUrbanismo" →
      resolveLat cfg { st with invoked := st.invoked ++ [c.name] } a.lat = some la →
      resolveLon cfg { st with invoked := st.invoked ++ [c.name] } a.lon = some lo →
      (processCall cfg st c).capasRadii =
        st.capasRadii ++ [clampNumber ((toNumber a.radius_m).getD cfg.radius) 200 5000]) ∧
    (∀ (cfg : ACfg) (st : AState) (calls : List Call), StateInv cfg st →
      ∀ rad ∈ (calls.foldl (processCall cfg) st).capasRadii, 200 ≤ rad ∧ rad ≤ 5000) := by
  constructor
  · intro cfg st c a la lo hfn hargs hn hla hlo
    unfold processCall
    rw [if_neg (by simp [hfn])]
    rw [hargs]
    dsimp only
    have hn1 : ¬(c.name = "buscarCoordenadas") := by rw [hn]; decide
    rw [if_neg hn1, if_pos hn]
    unfold analyzeUrbCall
    rw [hla, hlo]
    dsimp only
    cases c.urbO with
    | thrown m =>
        dsimp only
        rw [analyzeCatch_urb_eq]
    | ret out =>
        dsimp only
        rw [urbApply_capasRadii]
  · intro cfg st calls hinv rad hr
    exact (stateInv_foldCalls cfg calls st hinv).radii rad hr

/-- The `capasUrbanismo` call of the concrete batch. -/
def wCapasCall : Call :=
  { id := "c2", name := "capasUrbanismo",
    args := some { wLatLonArgs with radius_m := .jnum 1200 },
    urbO := .ret {} }

/-- Witness for C10's theorem at the concrete call and batch. -/
theorem capas_radius_clamped_witness :
    (processCall wCoordCfg (initAState wCoordCfg) wCapasCall).capasRadii =
      (initAState wCoordCfg).capasRadii ++
        [clampNumber ((toNumber (.jnum 1200)).getD wCoordCfg.radius) 200 5000] ∧
    ∀ rad ∈ ([wCapasCall].foldl (processCall wCoordCfg)
        (initAState wCoordCfg)).capasRadii, 200 ≤ rad ∧ rad ≤ 5000 :=
  ⟨capas_radius_clamped.1 wCoordCfg (initAState wCoordCfg) wCapasCall
      { wLatLonArgs with radius_m := .jnum 1200 } 39 (-(1 : ℚ))
      (by rfl) (by rfl) (by rfl) (by rfl) (by rfl),
   capas_radius_clamped.2 wCoordCfg (initAState wCoordCfg) [wCapasCall]
      (stateInv_init wCoordCfg)⟩

/- ## C4 -/

/-- Result of a non-throwing flood-risk call (dummy on a thrown one). -/
def floodResOf : Except String FloodFull → FloodFull
  | Except.ok r => r
  | Except.error _ => { ok := false, method := "", fallback_used := false }

/-- C4 (amended): whenever `riesgoInundacion` cannot obtain a confident
answer from the primary WMS flow it returns `ok: false` together with
`fallback_used: true` — the degraded case is a failure result flagged with
`fallback_used`, not an `ok: true` result, and no reverse-geocode-based
fallback value is substituted; conversely every `ok: true` result has
`fallback_used: false`.  Formally: every returned result satisfies
`fallback_used = !ok`. -/
theorem flood_fallback_flags (o : FloodOracle) (r : FloodFull)
    (h : riesgoInundacion o = Except.ok r) : r.fallback_used = !r.ok := by
  unfold riesgoInundacion at h
  by_cases hth : o.capThrows = true
  · rw [if_pos hth] at h
    exact Except.noConfusion h
  · rw [if_neg hth] at h
    by_cases hok : o.capOk = false
    · rw [if_pos hok] at h
      rcases Except.ok.inj h with rfl
      rfl
    · rw [if_neg hok] at h
      cases hp : pickLayer o.layers with
      | none =>
          rw [hp] at h
          dsimp only at h
          rcases Except.ok.inj h with rfl
          rfl
      | some pick =>
          rw [hp] at h
          dsimp only at h
          by_cases hnm : (pick.name.getD "") = ""
          · rw [if_pos hnm] at h
            rcases Except.ok.inj h with rfl
            rfl
          · rw [if_neg hnm] at h
            cases hu : firstUsableAttempt attemptSlots o.attempts with
            | none =>
                rw [hu] at h
                dsimp only at h
                rcases Except.ok.inj h with rfl
                rfl
            | some best =>
                rw [hu] at h
                dsimp only at h
                rcases Except.ok.inj h with rfl
                rfl

/-- The degraded capability-failure call. -/
def wFloodCapFail : FloodOracle := { capOk := false, capStatus := 503 }

/-- Counterexample to C4 as stated: when the primary WMS flow cannot
produce an answer (here the capabilities request fails), the result is
`ok: false` with `fallback_used: true` — not `ok: true`, and with no
substituted reverse-geocode fallback payload. -/
theorem flood_fallback_counterexample :
    (floodResOf (riesgoInundacion wFloodCapFail)).ok = false ∧
    (floodResOf (riesgoInundacion wFloodCapFail)).fallback_used = true := by
  exact ⟨by rfl, by rfl⟩

/-- Witness for C4's theorem at the degraded call. -/
theorem flood_fallback_flags_witness :
    (floodResOf (riesgoInundacion wFloodCapFail)).fallback_used =
      !(floodResOf (riesgoInundacion wFloodCapFail)).ok :=
  flood_fallback_flags wFloodCapFail
    (floodResOf (riesgoInundacion wFloodCapFail)) (by rfl)

/- ## C5 -/

/-- C5 (amended): on a non-OK upstream HTTP status, `reverseGeocode`,
`airQuality`, `riesgoInundacion` and the cityStats entity fetch return
tagged failure results without throwing; but `buscarCoordenadas` throws on
a non-OK search response and `capasUrbanismo` throws when every Overpass
mirror returns non-OK, so those two adapters do not always hand their
caller a tagged result — the analyze orchestrator catches the exception
and converts it into the tagged `{ok: false, error}` slot itself. -/
theorem adapters_throw_discipline :
    (∀ o : RevOracle, o.fetchThrows = false → o.resOk = false →
      reverseGeocode o = Except.ok
        { ok := false, display_name := none, address := none,
          extratagsWikidata := none }) ∧
    (∀ o : AirOracle, o.fetchThrows = false → o.resOk = false →
      airQuality o = Except.ok { ok := false }) ∧
    (∀ o : FloodOracle, o.capThrows = false → o.capOk = false →
      riesgoInundacion o = Except.ok
        { ok := false, method := "copernicus_wms", fallback_used := true,
          reason := some ("GetCapabilities HTTP " ++ toString o.capStatus) }) ∧
    (∀ (status : Nat), fetchWikidataEntityHttp false false status =
      Except.ok (false, some ("Wikidata EntityData HTTP " ++ toString status))) ∧
    (∀ o : GeoOracle, o.fetchThrows = false → o.resOk = false →
      buscarCoordenadas o =
        Except.error ("Nominatim search fallo: HTTP " ++ toString o.status)) ∧
    (∀ (o : UrbOracle) (radius : Option ℚ) (s1 s2 s3 : Nat),
      o.envEndpoint = none →
      o.endpointOuts = [.resp false s1, .resp false s2, .resp false s3] →
      capasUrbanismo o radius =
        Except.error ("Overpass fallo: HTTP " ++ toString s3)) ∧
    (∀ (cfg : ACfg) (st : AState) (c : Call) (a : Args) (m : String) (la lo : ℚ),
      c.typeFn = true → c.args = some a → c.name = "capasUrbanismo" →
      c.urbO = .thrown m →
      resolveLat cfg { st with invoked := st.invoked ++ [c.name] } a.lat = some la →
      resolveLon cfg { st with invoked := st.invoked ++ [c.name] } a.lon = some lo →
      (processCall cfg st c).urban = some (Stored.errObj m) ∧
      (processCall cfg st c).limitations =
        st.limitations ++ ["capasUrbanismo fallo: " ++ m] ∧
      (processCall cfg st c).msgs = st.msgs ++ [PushedMsg.toolErr c.id m]) := by
  refine ⟨?_, ?_, ?_, ?_, ?_, ?_, ?_⟩
  · intro o h1 h2
    unfold reverseGeocode
    rw [if_neg (by simp [h1]), if_pos h2]
  · intro o h1 h2
    unfold airQuality
    rw [if_neg (by simp [h1]), if_pos h2]
  · intro o h1 h2
    unfold riesgoInundacion
    rw [if_neg (by simp [h1]), if_pos h2]
  · intro status
    rfl
  · intro o h1 h2
    unfold buscarCoordenadas
    rw [if_neg (by simp [h1]), if_pos h2]
  · intro o radius s1 s2 s3 henv houts
    unfold capasUrbanismo
    rw [henv, houts]
    rfl
  · intro cfg st c a m la lo hfn hargs hn hurb hla hlo
    have hred : processCall cfg st c =
        analyzeCatch
          { st with invoked := st.invoked ++ [c.name],
                    capasRadii := st.capasRadii ++
                      [clampNumber ((toNumber a.radius_m).getD cfg.radius) 200 5000] }
          ("capasUrbanismo") c.id m := by
      unfold processCall
      rw [if_neg (by simp [hfn])]
      rw [hargs]
      dsimp only
      rw [if_neg (by rw [hn]; decide), if_pos hn]
      unfold analyzeUrbCall
      rw [hla, hlo]
      dsimp only
      rw [hurb]
    rw [hred, analyzeCatch_urb_eq]
    exact ⟨rfl, rfl, rfl⟩

/-- The non-OK search response. -/
def wGeoHttpFail : GeoOracle := { resOk := false, status := 500 }

/-- All three Overpass mirrors failing. -/
def wUrbAllFail : UrbOracle :=
  { endpointOuts := [.resp false 429, .resp false 500, .resp false 504] }

/-- Counterexample to C5 as stated: two adapters throw (return an
exception, not a tagged result) exactly when the upstream HTTP request
returns a non-OK status / all mirror endpoints fail. -/
theorem adapters_throw_counterexample :
    buscarCoordenadas wGeoHttpFail =
      Except.error ("Nominatim search fallo: HTTP 500") ∧
    capasUrbanismo wUrbAllFail (some 1200) =
      Except.error ("Overpass fallo: HTTP 504") := by
  exact ⟨by rfl, by rfl⟩

/-- Witness for C5's theorem at concrete oracles. -/
theorem adapters_throw_discipline_witness :
    reverseGeocode { fetchThrows := false, resOk := false, status := 404 } =
      Except.ok { ok := false, display_name := none, address := none,
                  extratagsWikidata := none } ∧
    airQuality { fetchThrows := false, resOk := false, status := 404 } =
      Except.ok { ok := false } ∧
    buscarCoordenadas wGeoHttpFail =
      Except.error ("Nominatim search fallo: HTTP " ++ toString wGeoHttpFail.status) :=
  ⟨adapters_throw_discipline.1 _ (by rfl) (by rfl),
   adapters_throw_discipline.2.1 _ (by rfl) (by rfl),
   adapters_throw_discipline.2.2.2.2.1 wGeoHttpFail (by rfl) (by rfl)⟩

/- ## C7 -/

theorem buildCity_stats_eq (lat lon : ℚ) (o : CityOracle) (s : StatsOut)
    (cb : CityBundle) (hs : o.statsO = .ret s)
    (hrun : buildCity lat lon o = Except.ok cb) :
    cb.stats = applyDensity s := by
  unfold buildCity at hrun
  cases hr : o.revO with
  | thrown m =>
      rw [hr] at hrun
      exact Except.noConfusion hrun
  | ret reverse =>
      rw [hr, hs] at hrun
      dsimp only [awaitAdapter] at hrun
      cases ha : o.airO with
      | thrown m =>
          rw [ha] at hrun
          exact Except.noConfusion hrun
      | ret air =>
          rw [ha] at hrun
          dsimp only [awaitAdapter] at hrun
          cases hf : o.floodO with
          | thrown m =>
              rw [hf] at hrun
              exact Except.noConfusion hrun
          | ret flood =>
              rw [hf] at hrun
              dsimp only [awaitAdapter] at hrun
              rcases Except.ok.inj hrun with rfl
              rfl

/-- C7 (amended): in each per-location bundle of the comparison mode the
density is computed exactly when the stats lookup succeeded (`ok`) and
both `population` and `area_km2` are present, non-null AND truthy (a
present value of 0 is falsy in JS and does not qualify); then
`population_density_km2 = Number((population / area_km2).toFixed(2))`; in
every other case the field keeps its initial null. -/
theorem compare_density_truthiness (lat lon : ℚ) (o : CityOracle)
    (s : StatsOut) (cb : CityBundle) (hs : o.statsO = .ret s)
    (h0 : s.population_density_km2 = none)
    (hrun : buildCity lat lon o = Except.ok cb) :
    (∀ p a, s.ok = true → s.population = some p → p ≠ 0 →
      s.area_km2 = some a → a ≠ 0 →
      cb.stats.population_density_km2 = some (toFixed2 (p / a))) ∧
    (¬(s.ok = true ∧ (∃ p, s.population = some p ∧ p ≠ 0) ∧
        (∃ a, s.area_km2 = some a ∧ a ≠ 0)) →
      cb.stats.population_density_km2 = none) := by
  have hst := buildCity_stats_eq lat lon o s cb hs hrun
  constructor
  · intro p a hok hp hpne ha hane
    rw [hst]
    unfold applyDensity
    rw [hok, hp, ha]
    dsimp only
    rw [if_pos ⟨hpne, hane⟩]
  · intro hnot
    rw [hst]
    unfold applyDensity
    cases hok : s.ok with
    | false =>
        cases hp : s.population <;> cases ha : s.area_km2 <;> exact h0
    | true =>
        cases hp : s.population with
        | none => cases ha : s.area_km2 <;> exact h0
        | some p =>
            cases ha : s.area_km2 with
            | none => exact h0
            | some a =>
                dsimp only
                rw [if_neg ?hcond]
                · exact h0
                case hcond =>
                  intro hpa
                  exact hnot ⟨hok, ⟨p, hp, hpa.1⟩, ⟨a, ha, hpa.2⟩⟩

/-- A stats result with a present, non-null but zero population. -/
def wZeroPopStats : StatsOut := { ok := true, population := some 0, area_km2 := some 10 }

/-- The oracle returning it, the other adapters benign. -/
def wZeroPopOracle : CityOracle := { statsO := .ret wZeroPopStats }

/-- Bundle of a non-throwing `buildCity` call (dummy on a thrown one). -/
def bundleOf : Except String CityBundle → CityBundle
  | Except.ok cb => cb
  | Except.error _ =>
      { lat := 0, lon := 0, reverse := { ok := false }, stats := { ok := false },
        air := { ok := false }, flood := {} }

/-- Counterexample to C7 as stated: the stats lookup succeeded and both
population (0) and area_km2 (10) are present and non-null, so the claim
requires density = (0 / 10).toFixed(2) = 0; the code's JS truthiness check
leaves it null instead. -/
theorem compare_density_counterexample :
    wZeroPopStats.ok = true ∧ wZeroPopStats.population = some 0 ∧
    wZeroPopStats.area_km2 = some 10 ∧
    (bundleOf (buildCity 1 2 wZeroPopOracle)).stats.population_density_km2 = none := by
  exact ⟨by rfl, by rfl, by rfl, by rfl⟩

/-- A stats result with truthy population and area. -/
def wGoodStats : StatsOut := { ok := true, population := some 800000, area_km2 := some 134 }

/-- The oracle returning it. -/
def wGoodStatsOracle : CityOracle := { statsO := .ret wGoodStats }

/-- Witness for C7's theorem: both directions at concrete bundles. -/
theorem compare_density_truthiness_witness :
    (bundleOf (buildCity 1 2 wGoodStatsOracle)).stats.population_density_km2 =
      some (toFixed2 ((800000 : ℚ) / 134)) ∧
    (bundleOf (buildCity 1 2 wZeroPopOracle)).stats.population_density_km2 = none :=
  ⟨(compare_density_truthiness 1 2 wGoodStatsOracle wGoodStats
      (bundleOf (buildCity 1 2 wGoodStatsOracle)) (by rfl) (by rfl) (by rfl)).1
      800000 134 (by rfl) (by rfl) (by norm_num) (by rfl) (by norm_num),
   (compare_density_truthiness 1 2 wZeroPopOracle wZeroPopStats
      (bundleOf (buildCity 1 2 wZeroPopOracle)) (by rfl) (by rfl) (by rfl)).2
      (by
        rintro ⟨-, ⟨p, hp, hpne⟩, -⟩
        exact hpne (by
          have : some p = some (0 : ℚ) := by rw [← hp]; rfl
          exact Option.some.inj this))⟩

/- ## C8 -/

theorem maxTsGo_ne_none (l : List (ℚ × ℤ)) (b : ℤ) :
    l.foldl maxTsStep (some b) ≠ none := by
  induction l generalizing b with
  | nil => exact fun h => Option.noConfusion h
  | cons x xs ih => exact ih (max b x.2)

theorem maxTsOf_eq_nil (l : List (ℚ × ℤ)) (h : maxTsOf l = none) : l = [] := by
  cases l with
  | nil => rfl
  | cons x xs => exact absurd h (maxTsGo_ne_none xs x.2)

theorem maxTsGo_attained (l : List (ℚ × ℤ)) (b m : ℤ)
    (h : l.foldl maxTsStep (some b) = some m) :
    m = b ∨ ∃ x, x ∈ l ∧ x.2 = m := by
  induction l generalizing b with
  | nil => exact Or.inl (Option.some.inj h).symm
  | cons x xs ih =>
      rcases ih (max b x.2) h with h1 | ⟨y, hy, hy2⟩
      · rcases max_choice b x.2 with hm | hm
        · exact Or.inl (by rw [h1, hm])
        · exact Or.inr ⟨x, List.mem_cons_self x xs, by rw [hm] at h1; exact h1.symm⟩
      · exact Or.inr ⟨y, List.mem_cons_of_mem x hy, hy2⟩

theorem maxTsOf_attained (l : List (ℚ × ℤ)) (m : ℤ) (h : maxTsOf l = some m) :
    ∃ x, x ∈ l ∧ x.2 = m := by
  cases l with
  | nil => exact absurd h (fun hh => Option.noConfusion hh)
  | cons x xs =>
      rcases maxTsGo_attained xs x.2 m h with h1 | ⟨y, hy, hy2⟩
      · exact ⟨x, List.mem_cons_self x xs, h1.symm⟩
      · exact ⟨y, List.mem_cons_of_mem x hy, hy2⟩

theorem maxTsOf_concat (l : List (ℚ × ℤ)) (x : ℚ × ℤ) :
    maxTsOf (l ++ [x]) = maxTsStep (maxTsOf l) x := by
  unfold maxTsOf
  rw [List.foldl_append]
  rfl

theorem datedClaims_append (l1 l2 : List PopClaim) :
    datedClaims (l1 ++ l2) = datedClaims l1 ++ datedClaims l2 := by
  unfold datedClaims
  exact List.filterMap_append l1 l2 datedOf

theorem find_append_none (p : PopClaim → Bool) (l1 l2 : List PopClaim)
    (h : l1.find? p = none) : (l1 ++ l2).find? p = l2.find? p := by
  induction l1 with
  | nil => rfl
  | cons x xs ih =>
      cases hx : p x with
      | true => simp [List.find?, hx] at h
      | false =>
          simp only [List.cons_append, List.find?, hx] at h ⊢
          exact ih h

theorem find_append_some (p : PopClaim → Bool) (l1 l2 : List PopClaim)
    (c : PopClaim) (h : l1.find? p = some c) : (l1 ++ l2).find? p = some c := by
  induction l1 with
  | nil => exact Option.noConfusion h
  | cons x xs ih =>
      cases hx : p x with
      | true =>
          simp only [List.find?, hx] at h
          simp only [List.cons_append, List.find?, hx]
          exact h
      | false =>
          simp only [List.find?, hx] at h
          simp only [List.cons_append, List.find?, hx]
          exact ih h

theorem datedClaims_single_none (c : PopClaim) (h : datedOf c = none) :
    datedClaims [c] = [] := by
  unfold datedClaims
  rw [List.filterMap_cons, h]
  rfl

theorem specPopulation_none_parts (l : List PopClaim)
    (h : specPopulation l = none) :
    maxTsOf (datedClaims l) = none ∧ l.find? (fun c => c.amount.isSome) = none := by
  unfold specPopulation at h
  cases hm : maxTsOf (datedClaims l) with
  | some m =>
      rw [hm] at h
      dsimp only at h
      obtain ⟨x, hx, hx2⟩ := maxTsOf_attained _ m hm
      have hmem : x ∈ (datedClaims l).filter (fun x => x.2 = m) :=
        List.mem_filter.mpr ⟨hx, by rw [hx2]; exact decide_eq_true rfl⟩
      have hne : (datedClaims l).filter (fun x => x.2 = m) ≠ [] :=
        List.ne_nil_of_mem hmem
      cases hgl : ((datedClaims l).filter (fun x => x.2 = m)).getLast? with
      | none =>
          exact absurd (List.getLast?_isSome.mpr hne) (by rw [hgl]; exact fun hh => Bool.noConfusion hh)
      | some x0 =>
          rw [hgl] at h
          exact Option.noConfusion h
  | none =>
      rw [hm] at h
      dsimp only at h
      refine ⟨rfl, ?_⟩
      cases hf : l.find? (fun c => c.amount.isSome) with
      | none => rfl
      | some d =>
          rw [hf] at h
          have hd := List.find?_some hf
          cases hda : d.amount with
          | none => rw [hda] at hd; exact Bool.noConfusion hd
          | some q =>
              dsimp only [Option.bind] at h
              rw [hda] at h
              exact Option.noConfusion h

theorem specPopulation_append_undated (l : List PopClaim) (c : PopClaim)
    (h : c.amount = none) : specPopulation (l ++ [c]) = specPopulation l := by
  have hnd : datedOf c = none := by
    unfold datedOf
    rw [h]
  unfold specPopulation
  rw [datedClaims_append, datedClaims_single_none c hnd, List.append_nil]
  cases hm : maxTsOf (datedClaims l) with
  | some m => rfl
  | none =>
      dsimp only
      cases hf : l.find? (fun c => c.amount.isSome) with
      | some d => rw [find_append_some _ l [c] d hf]
      | none =>
          rw [find_append_none _ l [c] hf]
          simp [List.find?, h]

theorem specPopulation_append_nodate_some (l : List PopClaim) (c : PopClaim)
    (q : ℚ) (hnd : datedOf c = none) (h : specPopulation l = some q) :
    specPopulation (l ++ [c]) = some q := by
  unfold specPopulation at h ⊢
  rw [datedClaims_append, datedClaims_single_none c hnd, List.append_nil]
  cases hm : maxTsOf (datedClaims l) with
  | some m =>
      rw [hm] at h
      exact h
  | none =>
      rw [hm] at h
      dsimp only at h ⊢
      cases hf : l.find? (fun c => c.amount.isSome) with
      | none =>
          rw [hf] at h
          exact Option.noConfusion h
      | some d =>
          rw [hf] at h
          rw [find_append_some _ l [c] d hf]
          exact h

theorem specPopulation_append_first_amount (l : List PopClaim) (p : ℚ)
    (h : specPopulation l = none) :
    specPopulation (l ++ [⟨some p, none⟩]) = some p := by
  obtain ⟨hm, hf⟩ := specPopulation_none_parts l h
  unfold specPopulation
  rw [datedClaims_append,
      datedClaims_single_none ⟨some p, none⟩ (by unfold datedOf; rfl),
      List.append_nil, hm]
  dsimp only
  rw [find_append_none _ l _ hf]
  rfl

theorem specPopulation_append_dated_first (l : List PopClaim) (p : ℚ)
    (t : String) (ts : ℤ) (hm : maxTsOf (datedClaims l) = none) :
    specPopulation (l ++ [⟨some p, some (t, ts)⟩]) = some p := by
  have hnil := maxTsOf_eq_nil _ hm
  unfold specPopulation
  rw [datedClaims_append, hnil, List.nil_append,
      show datedClaims [(⟨some p, some (t, ts)⟩ : PopClaim)] = [(p, ts)] from rfl]
  simp [maxTsOf, maxTsStep, List.filter]

theorem specPopulation_append_dated_ge (l : List PopClaim) (p : ℚ)
    (t : String) (ts b : ℤ) (hm : maxTsOf (datedClaims l) = some b)
    (hge : ts ≥ b) :
    specPopulation (l ++ [⟨some p, some (t, ts)⟩]) = some p := by
  unfold specPopulation
  rw [datedClaims_append,
      show datedClaims [(⟨some p, some (t, ts)⟩ : PopClaim)] = [(p, ts)] from rfl,
      maxTsOf_concat, hm]
  dsimp only [maxTsStep]
  rw [max_eq_right hge]
  rw [List.filter_append,
      show ([((p, ts) : ℚ × ℤ)].filter (fun x => x.2 = ts)) = [(p, ts)] from by simp,
      List.getLast?_concat]
  rfl

theorem specPopulation_append_dated_lt (l : List PopClaim) (p : ℚ)
    (t : String) (ts b : ℤ) (hm : maxTsOf (datedClaims l) = some b)
    (hlt : ts < b) :
    specPopulation (l ++ [⟨some p, some (t, ts)⟩]) = specPopulation l := by
  unfold specPopulation
  rw [datedClaims_append,
      show datedClaims [(⟨some p, some (t, ts)⟩ : PopClaim)] = [(p, ts)] from rfl,
      maxTsOf_concat, hm]
  dsimp only [maxTsStep]
  rw [max_eq_left (le_of_lt hlt)]
  rw [List.filter_append,
      show ([((p, ts) : ℚ × ℤ)].filter (fun x => x.2 = b)) = [] from by
        simp [ne_of_lt hlt],
      List.append_nil]

theorem pickAcc_spec (cs : List PopClaim) :
    (cs.foldl pickStep (none, none, none)).2.2 = maxTsOf (datedClaims cs) ∧
    (cs.foldl pickStep (none, none, none)).1 = specPopulation cs := by
  induction cs using List.reverseRecOn with
  | nil => exact ⟨rfl, rfl⟩
  | append_singleton l c ih =>
      obtain ⟨ih1, ih2⟩ := ih
      obtain ⟨amt, tim⟩ := c
      rw [List.foldl_append, List.foldl_cons, List.foldl_nil]
      cases amt with
      | none =>
          dsimp only [pickStep]
          refine ⟨?_, ?_⟩
          · rw [ih1, datedClaims_append,
                datedClaims_single_none ⟨none, tim⟩ (by unfold datedOf; rfl),
                List.append_nil]
          · rw [ih2, specPopulation_append_undated l ⟨none, tim⟩ rfl]
      | some p =>
          cases tim with
          | none =>
              dsimp only [pickStep]
              by_cases h1 :
                  (l.foldl pickStep (none, none, none)).1 = (none : Option ℚ)
              · rw [if_pos h1]
                refine ⟨?_, ?_⟩
                · rw [show ((some p, (l.foldl pickStep (none, none, none)).2.1,
                        (l.foldl pickStep (none, none, none)).2.2) :
                        Option ℚ × Option String × Option ℤ).2.2 =
                        (l.foldl pickStep (none, none, none)).2.2 from rfl,
                      ih1, datedClaims_append,
                      datedClaims_single_none ⟨some p, none⟩ (by unfold datedOf; rfl),
                      List.append_nil]
                · exact (specPopulation_append_first_amount l p
                    (ih2.symm.trans h1)).symm
              · rw [if_neg h1]
                obtain ⟨q, hq⟩ := Option.ne_none_iff_exists'.mp h1
                have hsq : specPopulation l = some q := ih2.symm.trans hq
                refine ⟨?_, ?_⟩
                · rw [ih1, datedClaims_append,
                      datedClaims_single_none ⟨some p, none⟩ (by unfold datedOf; rfl),
                      List.append_nil]
                · rw [ih2, hsq,
                      specPopulation_append_nodate_some l ⟨some p, none⟩ q
                        (by unfold datedOf; rfl) hsq]
          | some tpair =>
              obtain ⟨t, ts⟩ := tpair
              dsimp only [pickStep]
              rw [datedClaims_append,
                  show datedClaims [(⟨some p, some (t, ts)⟩ : PopClaim)] =
                    [(p, ts)] from rfl,
                  maxTsOf_concat, ih1]
              cases hm : maxTsOf (datedClaims l) with
              | none =>
                  dsimp only [tsGe]
                  rw [if_pos rfl]
                  exact ⟨rfl, (specPopulation_append_dated_first l p t ts hm).symm⟩
              | some b =>
                  dsimp only [tsGe]
                  by_cases hge : ts ≥ b
                  · rw [if_pos (decide_eq_true hge)]
                    refine ⟨?_, ?_⟩
                    · dsimp only [maxTsStep]
                      rw [max_eq_right hge]
                    · exact (specPopulation_append_dated_ge l p t ts b hm hge).symm
                  · rw [if_neg (fun hc => hge (of_decide_eq_true hc))]
                    refine ⟨?_, ?_⟩
                    · rw [ih1, hm]
                      dsimp only [maxTsStep]
                      rw [max_eq_left (le_of_lt (lt_of_not_le hge))]
                    · rw [ih2, specPopulation_append_dated_lt l p t ts b hm
                        (lt_of_not_le hge)]

/-- C8: `pickLatestPopulation` of cityStats returns the population amount
whose P585 date qualifier is the latest among the time-qualified claims of
the entity; the loop's greater-than-or-equal comparison against the
running latest makes the last equally-recent claim in claim order win,
and a claim without a (parseable) date qualifier is used only when no
population has been selected yet — equivalently, exactly when no dated
claim exists at all, in which case the first amount in claim order is
returned. -/
theorem citystats_picks_latest_population (cs : List PopClaim) :
    (pickLatestPopulation cs).1 = specPopulation cs := by
  exact (pickAcc_spec cs).2
